import Mathlib

/-!
Shallow embedding of the CryptoBot signal pipeline (config.py,
signal_generator.py, technical_analysis.py, fundamental_analysis.py).

Numeric values are modelled as exact rationals (`ℚ`); Python dictionaries
with a fixed key set become structures; dictionary lookup with a default
becomes a total function; a Python `None`/missing dict becomes `Option`.
Directions, categories and subscription tiers are kept as the literal
strings the source compares against.  Wall-clock timestamps and the
human-readable message strings (summaries, risk-factor text) carry no
decision logic and are left out of the records.
-/

set_option maxRecDepth 2048

namespace CryptoBot

/-- Direction strings used by the source: 'BUY', 'SELL', 'NEUTRAL'. -/
def isDirection (s : String) : Prop :=
  s = "BUY" ∨ s = "SELL" ∨ s = "NEUTRAL"

instance (s : String) : Decidable (isDirection s) := by
  unfold isDirection; infer_instance

/-- technical_analysis.IndicatorSignal -/
structure IndicatorSignal where
  name : String
  value : ℚ
  signal : String
  strength : ℚ
  description : String
  deriving Repr, DecidableEq

/-- fundamental_analysis.FundamentalSignal -/
structure FundamentalSignal where
  name : String
  value : ℚ
  signal : String
  strength : ℚ
  description : String
  impact : String
  deriving Repr, DecidableEq

/-- technical_analysis.TechnicalAnalysisResult (timestamp omitted);
the price_targets dict is a key/value list. -/
structure TechnicalAnalysisResult where
  symbol : String
  timeframe : String
  signals : List IndicatorSignal
  overall_signal : String
  confidence : ℚ
  price_targets : List (String × ℚ)
  stop_loss : ℚ
  support_levels : List ℚ
  resistance_levels : List ℚ
  deriving Repr, DecidableEq

/-- fundamental_analysis.FundamentalAnalysisResult (timestamp omitted). -/
structure FundamentalAnalysisResult where
  symbol : String
  signals : List FundamentalSignal
  overall_signal : String
  confidence : ℚ
  risk_factors : List String
  market_sentiment : String
  deriving Repr, DecidableEq

/-- enhanced_telegram_bot.TradingSignal (numeric/decision fields;
timestamp and the formatted summary strings are omitted). -/
structure TradingSignal where
  symbol : String
  signal_type : String
  entry_price : ℚ
  stop_loss : ℚ
  take_profit_1 : ℚ
  take_profit_2 : ℚ
  leverage : ℤ
  confidence : ℚ
  risk_amount : ℚ
  position_size : ℚ
  category : String
  deriving Repr, DecidableEq

/-- One OHLCV bar (a row of the klines DataFrame) after validation. -/
structure Bar where
  op : ℚ
  hi : ℚ
  lo : ℚ
  cl : ℚ
  vol : ℚ
  deriving Repr, DecidableEq

/-- Bybit ticker snapshot; a missing dict key reads as 0 via
float(ticker_data.get(key, 0)). -/
structure Ticker where
  lastPrice : ℚ
  highPrice24h : ℚ
  lowPrice24h : ℚ
  turnover24h : ℚ
  price24hPcnt : ℚ
  deriving Repr, DecidableEq

/-! ## Distribution gate: config.TradingConfig.can_receive_signal
(identical code in persistent_config_system.can_receive_signal) -/

/-- One entry of config.TradingConfig.SUBSCRIPTION_TIERS
(features and cooldown carry no gate logic and are omitted). -/
structure TierSettings where
  max_signals_per_day : ℤ
  categories_allowed : List String
  deriving Repr, DecidableEq

/-- SUBSCRIPTION_TIERS['FREE'] -/
def free_tier : TierSettings :=
  { max_signals_per_day := 5, categories_allowed := ["major"] }

/-- config.TradingConfig.SUBSCRIPTION_TIERS as a partial lookup. -/
def subscription_tiers (tier : String) : Option TierSettings :=
  if tier = "FREE" then some free_tier
  else if tier = "BASIC" then
    some { max_signals_per_day := 15,
           categories_allowed := ["major", "defi", "layer1", "altcoins"] }
  else if tier = "PREMIUM" then
    some { max_signals_per_day := 30,
           categories_allowed := ["major", "defi", "layer1", "gaming_nft", "altcoins"] }
  else if tier = "VIP" then
    some { max_signals_per_day := -1,
           categories_allowed := ["major", "defi", "layer1", "meme", "gaming_nft",
                                  "emerging", "altcoins"] }
  else none

/-- One entry of config.TradingConfig.CHAT_SUBSCRIPTIONS
(the fields can_receive_signal reads). -/
structure ChatSettings where
  active : Bool
  is_admin : Bool
  tier : String
  signals_sent_today : ℕ
  deriving Repr, DecidableEq

/-- config.TradingConfig.can_receive_signal.  The chat argument is
`none` when chat_id is not in CHAT_SUBSCRIPTIONS (is_chat_authorized
then fails). -/
def can_receive_signal (chat : Option ChatSettings) (category : String) :
    Bool × String :=
  match chat with
  | none => (false, "chat not authorized")
  | some cs =>
    if cs.active = false then (false, "chat not authorized")
    else if cs.is_admin then (true, "OK (Admin - unlimited access)")
    else
      let ts := (subscription_tiers cs.tier).getD free_tier
      if category = "other" then
        if cs.tier = "VIP" ∨ cs.tier = "PREMIUM" ∨ cs.tier = "BASIC" then
          (true, "OK (Category other allowed)")
        else
          (false, "Category other is only for BASIC/PREMIUM/VIP")
      else if category ∈ ts.categories_allowed then
        if ts.max_signals_per_day > 0 ∧
            (cs.signals_sent_today : ℤ) ≥ ts.max_signals_per_day then
          (false, "daily signal limit reached")
        else (true, "OK")
      else (false, "category not available for this tier")

/-! ## Fundamental scorer:
fundamental_analysis.FundamentalAnalyzer._calculate_overall_fundamental_signal -/

/-- impact_weights dict; .get(impact, 0.3). -/
def impact_weight (impact : String) : ℚ :=
  if impact = "HIGH" then 1
  else if impact = "MEDIUM" then 0.6
  else if impact = "LOW" then 0.3
  else 0.3

/-- Impact-weighted raw BUY score (the buy_score accumulator before
normalization). -/
def fundamentalBuyRaw (signals : List FundamentalSignal) : ℚ :=
  (signals.map (fun s =>
    if s.signal = "BUY" then s.strength * impact_weight s.impact else 0)).sum

/-- Impact-weighted raw SELL score (the sell_score accumulator before
normalization). -/
def fundamentalSellRaw (signals : List FundamentalSignal) : ℚ :=
  (signals.map (fun s =>
    if s.signal = "SELL" then s.strength * impact_weight s.impact else 0)).sum

/-- The total_weight accumulator. -/
def fundamentalTotalWeight (signals : List FundamentalSignal) : ℚ :=
  (signals.map (fun s => impact_weight s.impact)).sum

/-- buy_score after the `(buy_score / total_weight) * 100` normalization. -/
def fundamentalBuyScore (signals : List FundamentalSignal) : ℚ :=
  if fundamentalTotalWeight signals > 0 then
    fundamentalBuyRaw signals / fundamentalTotalWeight signals * 100
  else fundamentalBuyRaw signals

/-- sell_score after normalization. -/
def fundamentalSellScore (signals : List FundamentalSignal) : ℚ :=
  if fundamentalTotalWeight signals > 0 then
    fundamentalSellRaw signals / fundamentalTotalWeight signals * 100
  else fundamentalSellRaw signals

/-- fundamental_analysis.FundamentalAnalyzer._calculate_overall_fundamental_signal:
returns (overall_signal, confidence). -/
def calculate_overall_fundamental_signal (signals : List FundamentalSignal) :
    String × ℚ :=
  if signals = [] then ("NEUTRAL", 0)
  else if fundamentalBuyScore signals > fundamentalSellScore signals + 15 then
    ("BUY", min (fundamentalBuyScore signals) 90)
  else if fundamentalSellScore signals > fundamentalBuyScore signals + 15 then
    ("SELL", min (fundamentalSellScore signals) 90)
  else
    ("NEUTRAL",
      max (50 - |fundamentalBuyScore signals - fundamentalSellScore signals|) 10)

/-! ## Series helpers (pandas iloc / rolling / ewm over rational lists) -/

/-- series.iloc[-k] (none when the index does not exist). -/
def ilocNeg {α : Type} (xs : List α) (k : ℕ) : Option α :=
  if 0 < k ∧ k ≤ xs.length then xs[xs.length - k]? else none

/-- series.rolling(n).mean().iloc[-k]; none when the value is NaN
(fewer than n observations) or the index does not exist. -/
def rollingMeanNeg (n : ℕ) (xs : List ℚ) (k : ℕ) : Option ℚ :=
  if 0 < n ∧ 0 < k ∧ n + k ≤ xs.length + 1 then
    some ((((xs.take (xs.length - k + 1)).drop (xs.length - k + 1 - n)).sum) / n)
  else none

/-- Accumulator for pandas ewm(span, adjust=True).mean(): keeps the
weighted numerator and the weight sum. -/
def ewmAdjustAux (r : ℚ) (num den : ℚ) : List ℚ → List ℚ
  | [] => []
  | x :: rest =>
    let num2 := r * num + x
    let den2 := r * den + 1
    num2 / den2 :: ewmAdjustAux r num2 den2 rest

/-- series.ewm(span=span, adjust=True).mean() with alpha = 2/(span+1). -/
def ewmAdjust (span : ℚ) (xs : List ℚ) : List ℚ :=
  ewmAdjustAux (1 - 2 / (span + 1)) 0 0 xs

/-- True-range tail: each bar's TR against the previous close. -/
def trAux (pc : ℚ) : List Bar → List ℚ
  | [] => []
  | b :: rest =>
    max (b.hi - b.lo) (max |b.hi - pc| |b.lo - pc|) :: trAux b.cl rest

/-- The true_range series: first bar has no previous close
(the NaN shift terms drop out of the row max), later bars use trAux. -/
def trueRangeList : List Bar → List ℚ
  | [] => []
  | b :: rest => (b.hi - b.lo) :: trAux b.cl rest

/-- The shared ATR(14) computation (signal_generator._calculate_stop_loss_enhanced
and technical_analysis._calculate_price_targets): rolling(14) mean of true
range, falling back to 2 percent of price when NaN or non-positive. -/
def atr14 (bars : List Bar) (cp : ℚ) : ℚ :=
  match rollingMeanNeg 14 (trueRangeList bars) 1 with
  | none => cp * 0.02
  | some a => if a ≤ 0 then cp * 0.02 else a

def closes (bars : List Bar) : List ℚ := bars.map (fun b => b.cl)

def lowsOf (bars : List Bar) : List ℚ := bars.map (fun b => b.lo)

def highsOf (bars : List Bar) : List ℚ := bars.map (fun b => b.hi)

def volsOf (bars : List Bar) : List ℚ := bars.map (fun b => b.vol)

/-- Does the character list start with the given pattern. -/
def charsLeadWith : List Char → List Char → Bool
  | [], _ => true
  | _ :: _, [] => false
  | a :: as, b :: bs => a = b && charsLeadWith as bs

/-- Does the pattern occur inside the character list. -/
def charsHasInfix (pat : List Char) : List Char → Bool
  | [] => charsLeadWith pat []
  | c :: cs => charsLeadWith pat (c :: cs) || charsHasInfix pat cs

/-- Python `sub in s` substring test. -/
def strContains (s sub : String) : Bool := charsHasInfix sub.toList s.toList

/-- Insertion step for ascending sort. -/
def insertAsc (x : ℚ) : List ℚ → List ℚ
  | [] => [x]
  | y :: ys => if x ≤ y then x :: y :: ys else y :: insertAsc x ys

/-- sorted(xs) -/
def sortAsc (xs : List ℚ) : List ℚ := xs.foldr insertAsc []

/-- sorted(xs, reverse=True) -/
def sortDesc (xs : List ℚ) : List ℚ := (sortAsc xs).reverse

/-! ## Indicator Engine: technical_analysis.TechnicalAnalyzer
(FINTA_AVAILABLE is modelled as true: TA.EMA/TA.SMA are the pandas
ewm/rolling means over the close column; the finta MACD frame is
modelled with its histogram column equal to MACD minus SIGNAL). -/

/-- config.TradingConfig.EMA_PERIODS -/
def EMA_PERIODS : List ℕ := [9, 21, 50, 100, 200]

/-- One EMA entry of _analyze_trend_indicators_finta. -/
def ema_trend_signal (cls : List ℚ) (cp : ℚ) (period : ℕ) :
    Option IndicatorSignal :=
  if period < cls.length then
    let ema := ewmAdjust (period : ℚ) cls
    match ilocNeg ema 1 with
    | none => none
    | some ema_value =>
      let res :=
        if 3 ≤ ema.length then
          let ema3 := (ilocNeg ema 3).getD 0
          let ema_slope := (ema_value - ema3) / ema3
          let price_distance := (cp - ema_value) / ema_value
          if cp > ema_value ∧ ema_slope > 0 then
            ("BUY", min (|price_distance| * 20 + |ema_slope| * 10) 0.9)
          else if cp < ema_value ∧ ema_slope < 0 then
            ("SELL", min (|price_distance| * 20 + |ema_slope| * 10) 0.9)
          else ("NEUTRAL", (0.2 : ℚ))
        else
          if cp > ema_value then
            ("BUY", min ((cp - ema_value) / ema_value * 50) 0.8)
          else
            ("SELL", min ((ema_value - cp) / ema_value * 50) 0.8)
      some { name := "EMA" ++ toString period, value := ema_value,
             signal := res.1, strength := |res.2|, description := "EMA" }
  else none

/-- The crossing/position case analysis of the MACD branch. -/
def macd_cross_signal (prev_macd prev_signal macd_line signal_line
    histogram : ℚ) : String × ℚ :=
  if prev_macd ≤ prev_signal ∧ macd_line > signal_line then
    ("BUY", (0.8 : ℚ))
  else if prev_macd ≥ prev_signal ∧ macd_line < signal_line then
    ("SELL", (0.8 : ℚ))
  else if macd_line > signal_line ∧ histogram > 0 then
    ("BUY", min (|histogram| * 1000 + 0.3) 0.6)
  else if macd_line < signal_line ∧ histogram < 0 then
    ("SELL", min (|histogram| * 1000 + 0.3) 0.6)
  else ("NEUTRAL", (0.1 : ℚ))

/-- The zero-line-crossing strength bonus of the MACD branch. -/
def macd_zero_cross_strength (macd_line prev_macd strength : ℚ) : ℚ :=
  if |macd_line| < 0.0001 then
    if macd_line > 0 ∧ prev_macd ≤ 0 then min (strength + 0.2) 0.9
    else if macd_line < 0 ∧ prev_macd ≥ 0 then min (strength + 0.2) 0.9
    else strength
  else strength

/-- The MACD entry of _analyze_trend_indicators_finta (DataFrame branch);
config: MACD_FAST=12, MACD_SLOW=26, MACD_SIGNAL=9. -/
def macd_trend_signal (cls : List ℚ) : Option IndicatorSignal :=
  if 35 < cls.length then
    let macd := List.zipWith (fun a b => a - b) (ewmAdjust 12 cls) (ewmAdjust 26 cls)
    let sigl := ewmAdjust 9 macd
    if 1 < macd.length then
      let macd_line := (ilocNeg macd 1).getD 0
      let signal_line := (ilocNeg sigl 1).getD 0
      let histogram := macd_line - signal_line
      let prev_macd := (ilocNeg macd 2).getD 0
      let prev_signal := (ilocNeg sigl 2).getD 0
      let core := macd_cross_signal prev_macd prev_signal macd_line
        signal_line histogram
      some { name := "MACD", value := macd_line, signal := core.1,
             strength := macd_zero_cross_strength macd_line prev_macd core.2,
             description := "MACD" }
    else none
  else none

/-- One SMA entry of _analyze_trend_indicators_finta.  A NaN value of
sma.iloc[-5] makes both slope comparisons false in pandas, landing in the
NEUTRAL branch. -/
def sma_trend_signal (cls : List ℚ) (cp : ℚ) (period : ℕ) :
    Option IndicatorSignal :=
  if period < cls.length then
    match rollingMeanNeg period cls 1 with
    | none => none
    | some sma_value =>
      let res :=
        if 5 ≤ cls.length then
          match rollingMeanNeg period cls 5 with
          | some sma5 =>
            let sma_slope := (sma_value - sma5) / sma5
            let price_distance := (cp - sma_value) / sma_value
            if cp > sma_value ∧ sma_slope > 0.001 then
              ("BUY", min (|price_distance| * 30 + |sma_slope| * 20) 0.7)
            else if cp < sma_value ∧ sma_slope < -0.001 then
              ("SELL", min (|price_distance| * 30 + |sma_slope| * 20) 0.7)
            else ("NEUTRAL", (0.1 : ℚ))
          | none => ("NEUTRAL", (0.1 : ℚ))
        else
          if cp > sma_value then
            ("BUY", min ((cp - sma_value) / sma_value * 50) 0.6)
          else
            ("SELL", min ((sma_value - cp) / sma_value * 50) 0.6)
      some { name := "SMA" ++ toString period, value := sma_value,
             signal := res.1, strength := |res.2|, description := "SMA" }
  else none

/-- technical_analysis.TechnicalAnalyzer._analyze_trend_indicators_finta.
An empty frame raises on iloc[-1]; the outer except returns []. -/
def analyze_trend_indicators_finta (bars : List Bar) : List IndicatorSignal :=
  match ilocNeg (closes bars) 1 with
  | none => []
  | some cp =>
    (EMA_PERIODS.filterMap (ema_trend_signal (closes bars) cp))
    ++ (macd_trend_signal (closes bars)).toList
    ++ (([20, 50, 100] : List ℕ).filterMap (sma_trend_signal (closes bars) cp))

/-- OBV accumulator over the remaining bars (starts at 0, per source). -/
def obvAux (pc acc : ℚ) : List Bar → List ℚ
  | [] => []
  | b :: rest =>
    let acc2 := if b.cl > pc then acc + b.vol
                else if b.cl < pc then acc - b.vol
                else acc
    acc2 :: obvAux b.cl acc2 rest

/-- The obv_data series: first element is the first volume. -/
def obvList : List Bar → List ℚ
  | [] => []
  | b :: rest => b.vol :: obvAux b.cl 0 rest

/-- The volume-ratio/price-move case analysis of the volume branch. -/
def volume_core_signal (volume_ratio_20 price_change : ℚ) : String × ℚ :=
  if volume_ratio_20 > 2 then
    if price_change > 0.02 then ("BUY", min (volume_ratio_20 / 5) 0.8)
    else if price_change < -0.02 then ("SELL", min (volume_ratio_20 / 5) 0.8)
    else ("NEUTRAL", (0.4 : ℚ))
  else if volume_ratio_20 > 1.5 then
    if price_change > 0 then ("BUY", min ((volume_ratio_20 - 1) / 2) 0.6)
    else ("NEUTRAL", (0.2 : ℚ))
  else if volume_ratio_20 < 0.5 then ("NEUTRAL", (0.1 : ℚ))
  else ("NEUTRAL", (0.1 : ℚ))

/-- The OBV-trend correction of the volume branch. -/
def volume_obv_adjust (core : String × ℚ) (obv_trend : ℚ) : String × ℚ :=
  if |obv_trend| > 0.1 then
    if obv_trend > 0 ∧ core.1 ≠ "SELL" then
      ("BUY", min (core.2 + |obv_trend|) 0.9)
    else if obv_trend < 0 ∧ core.1 ≠ "BUY" then
      ("SELL", min (core.2 + |obv_trend|) 0.9)
    else core
  else core

/-- technical_analysis.TechnicalAnalyzer._analyze_volume_indicators_finta
(the Volume-column presence test lives in `analyze`). -/
def analyze_volume_indicators_finta (bars : List Bar) : List IndicatorSignal :=
  if 20 < bars.length then
    match ilocNeg (volsOf bars) 1, rollingMeanNeg 10 (volsOf bars) 1,
          rollingMeanNeg 20 (volsOf bars) 1 with
    | some current_volume, some _avg10, some avg20 =>
      if avg20 > 0 then
        let volume_ratio_20 := current_volume / avg20
        let cl1 := (ilocNeg (closes bars) 1).getD 0
        let cl2 := (ilocNeg (closes bars) 2).getD 0
        let price_change := (cl1 - cl2) / cl2
        let obv := obvList bars
        let obv5 := (ilocNeg obv 5).getD 0
        let obv_trend :=
          if 5 ≤ obv.length ∧ obv5 ≠ 0 then ((ilocNeg obv 1).getD 0 - obv5) / |obv5|
          else 0
        let res := volume_obv_adjust
          (volume_core_signal volume_ratio_20 price_change) obv_trend
        [{ name := "Volume", value := current_volume, signal := res.1,
           strength := res.2, description := "Volume" }]
      else []
    | _, _, _ => []
  else []

/-- technical_analysis.TechnicalAnalyzer._analyze_candlestick_patterns. -/
def analyze_candlestick_patterns (bars : List Bar) : List IndicatorSignal :=
  if bars.length < 3 then []
  else
    match ilocNeg bars 1, ilocNeg bars 2, ilocNeg bars 3 with
    | some current, some prev1, some prev2 =>
      let current_body := |current.cl - current.op|
      let current_total := current.hi - current.lo
      let current_upper_shadow := current.hi - max current.op current.cl
      let current_lower_shadow := min current.op current.cl - current.lo
      let prev1_body := |prev1.cl - prev1.op|
      let prev1_total := prev1.hi - prev1.lo
      let singles : List (String × String × ℚ) :=
        if current_total > 0 then
          (if current_lower_shadow > current_body * 2 ∧
              current_upper_shadow < current_body * 0.5 ∧
              current_body > current_total * 0.1 then
            [("Hammer", "BUY", (0.6 : ℚ))]
          else if current_lower_shadow > current_body * 2 ∧
              current_upper_shadow < current_body * 0.5 ∧
              current.cl < prev1.cl then
            [("Hanging Man", "SELL", (0.5 : ℚ))]
          else if current_upper_shadow > current_body * 2 ∧
              current_lower_shadow < current_body * 0.5 ∧
              current_body > current_total * 0.1 then
            [("Shooting Star", "SELL", (0.6 : ℚ))]
          else if current_upper_shadow > current_body * 2 ∧
              current_lower_shadow < current_body * 0.5 ∧
              current.cl > prev1.cl then
            [("Inverted Hammer", "BUY", (0.5 : ℚ))]
          else if current_body < current_total * 0.1 then
            (if current_upper_shadow > current_total * 0.4 ∧
                current_lower_shadow > current_total * 0.4 then
              [("Doji", "NEUTRAL", (0.4 : ℚ))]
            else [])
          else [])
          ++
          (if prev1_total > 0 then
            (if current.cl > current.op ∧ prev1.cl < prev1.op ∧
                current.cl > prev1.op ∧ current.op < prev1.cl ∧
                current_body > prev1_body * 1.2 then
              [("Bullish Engulfing", "BUY", (0.7 : ℚ))]
            else if current.cl < current.op ∧ prev1.cl > prev1.op ∧
                current.cl < prev1.op ∧ current.op > prev1.cl ∧
                current_body > prev1_body * 1.2 then
              [("Bearish Engulfing", "SELL", (0.7 : ℚ))]
            else [])
          else [])
        else []
      let prev2_body := |prev2.cl - prev2.op|
      let triples : List (String × String × ℚ) :=
        if prev2.cl < prev2.op ∧ prev1_body < prev2_body * 0.5 ∧
            current.cl > current.op ∧
            current.cl > (prev2.op + prev2.cl) / 2 then
          [("Morning Star", "BUY", (0.8 : ℚ))]
        else if prev2.cl > prev2.op ∧ prev1_body < prev2_body * 0.5 ∧
            current.cl < current.op ∧
            current.cl < (prev2.op + prev2.cl) / 2 then
          [("Evening Star", "SELL", (0.8 : ℚ))]
        else []
      (singles ++ triples).map (fun p =>
        { name := "Pattern_" ++ p.1, value := 1, signal := p.2.1,
          strength := p.2.2, description := "candlestick pattern" })
    | _, _, _ => []

/-! ## Technical Scorer: support/resistance, overall signal, price targets -/

/-- Count of bars whose value touches the level within 0.5 percent. -/
def touchCount (level : ℚ) (xs : List ℚ) : ℕ :=
  (xs.filter (fun x => |x - level| ≤ level * 0.005)).length

/-- Local-extremum candidates with at least two touches, as collected by
_find_support_resistance (window = 5); `isMin` selects minima over lows
versus maxima over highs. -/
def extremeLevels (isMin : Bool) (xs : List ℚ) : List ℚ :=
  ((List.range xs.length).filter
      (fun i => decide (5 ≤ i) && decide (i + 5 < xs.length))).filterMap
    (fun i =>
      match xs[i]? with
      | none => none
      | some li =>
        let window := (xs.drop (i - 5)).take 11
        let isExtreme :=
          if isMin then window.all (fun x => li ≤ x)
          else window.all (fun x => x ≤ li)
        if isExtreme && decide (2 ≤ touchCount li xs) then some li else none)

/-- technical_analysis.TechnicalAnalyzer._find_support_resistance. -/
def find_support_resistance (bars : List Bar) : List ℚ × List ℚ :=
  if bars.length < 20 then ([], [])
  else
    let cp := (ilocNeg (closes bars) 1).getD 0
    let support := ((extremeLevels true (lowsOf bars)).dedup.filter
      (fun level => level < cp ∧ (cp - level) / cp < 0.15))
    let resistance := ((extremeLevels false (highsOf bars)).dedup.filter
      (fun level => level > cp ∧ (level - cp) / cp < 0.15))
    ((sortDesc support).take 5, (sortAsc resistance).take 5)

/-- The indicator_weights dict of _calculate_overall_signal, in insertion
order (the first key contained in the signal name wins). -/
def overall_indicator_weights : List (String × ℚ) :=
  [("MACD", 1.5), ("RSI", 1.2), ("EMA9", 1.0), ("EMA21", 1.3), ("EMA50", 1.5),
   ("Bollinger Bands", 1.1), ("Volume", 1.0), ("Pattern_", 0.8),
   ("Stochastic", 0.9), ("Williams", 0.7), ("ATR", 0.5), ("SMA", 0.8)]

/-- Weight resolution inside _calculate_overall_signal (base weight 0.5). -/
def overallWeightOf (name : String) : ℚ :=
  match overall_indicator_weights.find? (fun kw => strContains name kw.1) with
  | some kw => kw.2
  | none => 0.5

/-- technical_analysis.TechnicalAnalyzer._calculate_overall_signal. -/
def calculate_overall_signal (signals : List IndicatorSignal) : String × ℚ :=
  if signals = [] then ("NEUTRAL", 0)
  else
    let total_weight := (signals.map (fun s => overallWeightOf s.name)).sum
    if total_weight = 0 then ("NEUTRAL", 50)
    else
      let buy_score := ((signals.map (fun s =>
        if s.signal = "BUY" then s.strength * overallWeightOf s.name else 0)).sum
        / total_weight) * 100
      let sell_score := ((signals.map (fun s =>
        if s.signal = "SELL" then s.strength * overallWeightOf s.name else 0)).sum
        / total_weight) * 100
      let signal_threshold : ℚ :=
        if 8 ≤ signals.length then 15
        else if signals.length ≤ 4 then 25
        else 20
      if buy_score > sell_score + signal_threshold then ("BUY", min buy_score 95)
      else if sell_score > buy_score + signal_threshold then ("SELL", min sell_score 95)
      else ("NEUTRAL", max (60 - |buy_score - sell_score| / 2) 30)

/-- technical_analysis.TechnicalAnalyzer._calculate_price_targets:
returns ((target1, target2), stop_loss).  Only called on frames of 50 or
more bars, so iloc[-1] is defined. -/
def calculate_price_targets (bars : List Bar) (signal : String)
    (support_levels resistance_levels : List ℚ) : (ℚ × ℚ) × ℚ :=
  let current_price := (ilocNeg (closes bars) 1).getD 0
  let atr := atr14 bars current_price
  let volatility := atr / current_price
  let stop_multiplier : ℚ := if volatility > 0.05 then 2.5
    else if volatility < 0.02 then 1.5 else 2
  let target_multiplier_1 : ℚ := if volatility > 0.05 then 2
    else if volatility < 0.02 then 2.5 else 2.5
  let target_multiplier_2 : ℚ := if volatility > 0.05 then 3.5
    else if volatility < 0.02 then 4 else 4
  if signal = "BUY" then
    let stop0 := current_price - atr * stop_multiplier
    let stop_loss := match support_levels with
      | [] => stop0
      | s :: _ => max stop0 (s - atr * 0.5)
    let target1 := current_price + atr * target_multiplier_1
    let target2 := current_price + atr * target_multiplier_2
    let target1 := match resistance_levels with
      | [] => target1
      | r :: _ => min target1 (r * 0.995)
    let target2 := match resistance_levels with
      | [] => target2
      | _ :: r2 :: _ => min target2 (r2 * 0.995)
      | r :: _ => min target2 (r * 1.02)
    ((max target1 (current_price + atr), max target2 (current_price + atr * 2)),
      stop_loss)
  else if signal = "SELL" then
    let stop0 := current_price + atr * stop_multiplier
    let stop_loss := match resistance_levels with
      | [] => stop0
      | r :: _ => min stop0 (r + atr * 0.5)
    let target1 := current_price - atr * target_multiplier_1
    let target2 := current_price - atr * target_multiplier_2
    let target1 := match support_levels with
      | [] => target1
      | s :: _ => max target1 (s * 1.005)
    let target2 := match support_levels with
      | [] => target2
      | _ :: s2 :: _ => max target2 (s2 * 1.005)
      | s :: _ => max target2 (s * 0.98)
    ((min target1 (current_price - atr), min target2 (current_price - atr * 2)),
      stop_loss)
  else ((current_price, current_price), current_price)

/-! ## Data validation gate and analyze -/

/-- A raw klines row: `none` is a NaN/null cell. -/
structure RawBar where
  op : Option ℚ
  hi : Option ℚ
  lo : Option ℚ
  cl : Option ℚ
  vol : Option ℚ
  deriving Repr, DecidableEq

/-- A raw klines DataFrame: column-presence flags plus rows. -/
structure RawDf where
  hasOpen : Bool
  hasHigh : Bool
  hasLow : Bool
  hasClose : Bool
  hasVolume : Bool
  rows : List RawBar
  deriving Repr, DecidableEq

/-- technical_analysis.TechnicalAnalyzer._validate_data: required columns
present, no nulls in them, and no row with High < Low, Close outside
[Low, High] or Open outside [Low, High].  (The >50 percent price-jump
check only logs a warning and does not gate.) -/
def validate_data (df : RawDf) : Bool :=
  (df.hasOpen && df.hasHigh && df.hasLow && df.hasClose) &&
  (df.rows.all (fun r => r.op.isSome && r.hi.isSome && r.lo.isSome && r.cl.isSome)) &&
  (df.rows.all (fun r =>
    !(decide (r.hi.getD 0 < r.lo.getD 0) || decide (r.cl.getD 0 > r.hi.getD 0) ||
      decide (r.cl.getD 0 < r.lo.getD 0) || decide (r.op.getD 0 > r.hi.getD 0) ||
      decide (r.op.getD 0 < r.lo.getD 0))))

/-- technical_analysis.TechnicalAnalyzer._create_empty_result
(timestamp omitted). -/
def create_empty_result (symbol timeframe : String) : TechnicalAnalysisResult :=
  { symbol := symbol, timeframe := timeframe, signals := [],
    overall_signal := "NEUTRAL", confidence := 0, price_targets := [],
    stop_loss := 0, support_levels := [], resistance_levels := [] }

/-- Validated rows as plain bars. -/
def cleanBars (df : RawDf) : List Bar :=
  df.rows.map (fun r =>
    { op := r.op.getD 0, hi := r.hi.getD 0, lo := r.lo.getD 0,
      cl := r.cl.getD 0, vol := r.vol.getD 0 })

/-- technical_analysis.TechnicalAnalyzer.analyze with FINTA available.
The oscillator and volatility indicator families compute square roots
and other library internals outside this rational model, so they are
taken as function parameters; every claim proved over `analyze` holds
for all instantiations of them. -/
def analyze (oscillators volatilityFamily : List Bar → List IndicatorSignal)
    (df : RawDf) (symbol timeframe : String) : TechnicalAnalysisResult :=
  if df.rows.length < 50 then create_empty_result symbol timeframe
  else if validate_data df = false then create_empty_result symbol timeframe
  else
    let bars := cleanBars df
    let signals :=
      analyze_trend_indicators_finta bars ++ oscillators bars ++
      volatilityFamily bars ++
      (if df.hasVolume then analyze_volume_indicators_finta bars else []) ++
      analyze_candlestick_patterns bars
    let sr := find_support_resistance bars
    let oc := calculate_overall_signal signals
    let pt := calculate_price_targets bars oc.1 sr.1 sr.2
    { symbol := symbol, timeframe := timeframe, signals := signals,
      overall_signal := oc.1, confidence := oc.2,
      price_targets := [("target1", pt.1.1), ("target2", pt.1.2)],
      stop_loss := pt.2, support_levels := sr.1, resistance_levels := sr.2 }

/-! ## Configuration (config.py): env-dependent values as a record -/

/-- The configuration values the signal pipeline reads.  volume_reduction
is SIGNAL_MULTIPLIERS['volume_reduction'] (0.7 conservative, 0.3
aggressive, 0.5 moderate). -/
structure Config where
  test_mode : Bool
  volume_reduction : ℚ
  MIN_VOLUME_USDT : ℚ
  MAX_RISK_PER_TRADE : ℚ
  MAX_LEVERAGE : ℤ
  deriving Repr, DecidableEq

/-- Defaults: moderate optimization, TEST_MODE off, no env overrides. -/
def defaultConfig : Config :=
  { test_mode := false, volume_reduction := 0.5, MIN_VOLUME_USDT := 50000000,
    MAX_RISK_PER_TRADE := 2, MAX_LEVERAGE := 5 }

/-- Python int() truncation toward zero on an exact rational. -/
def pyInt (q : ℚ) : ℤ := q.num.tdiv q.den

/-- The base_volumes dict in TradingConfig.__init__. -/
def base_volumes (category : String) : Option ℚ :=
  if category = "major" then some 100000000
  else if category = "defi" then some 20000000
  else if category = "layer1" then some 30000000
  else if category = "meme" then some 10000000
  else if category = "gaming_nft" then some 5000000
  else if category = "emerging" then some 3000000
  else if category = "altcoins" then some 10000000
  else none

/-- MIN_VOLUMES_BY_CATEGORY = int(base * volume_reduction) per category. -/
def min_volumes_by_category (cfg : Config) (category : String) : Option ℚ :=
  (base_volumes category).map (fun v => ((pyInt (v * cfg.volume_reduction) : ℤ) : ℚ))

/-- config.TradingConfig.PAIR_CATEGORIES (insertion order preserved). -/
def PAIR_CATEGORIES : List (String × List String) :=
  [("major", ["BTCUSDT", "ETHUSDT", "BNBUSDT", "XRPUSDT", "ADAUSDT", "SOLUSDT"]),
   ("defi", ["LINKUSDT", "UNIUSDT", "AAVEUSDT", "MKRUSDT", "SUSHIUSDT", "CRVUSDT",
             "GRTUSDT", "COMPUSDT", "SNXUSDT", "YFIUSDT", "1INCHUSDT"]),
   ("layer1", ["DOTUSDT", "AVAXUSDT", "ATOMUSDT", "NEARUSDT", "APTUSDT", "SUIUSDT",
               "ALGOUSDT", "TRXUSDT", "THETAUSDT", "XTZUSDT"]),
   ("meme", ["DOGEUSDT", "1000SHIBUSDT", "1000PEPEUSDT", "1000FLOKIUSDT"]),
   ("gaming_nft", ["APEUSDT", "SANDUSDT", "MANAUSDT", "GALAUSDT", "ENJUSDT",
                   "CHZUSDT", "AXSUSDT"]),
   ("emerging", ["CETUSUSDT", "SLERFUSDT", "SXTUSDT", "AUCTIONUSDT", "TIAUSDT"]),
   ("altcoins", ["LTCUSDT", "BCHUSDT", "ETCUSDT", "XLMUSDT", "VETUSDT", "ICPUSDT",
                 "FILUSDT", "INJUSDT", "RUNEUSDT", "LDOUSDT", "ARBUSDT", "OPUSDT"])]

/-- signal_generator.SignalGenerator._get_pair_category. -/
def get_pair_category (symbol : String) : String :=
  match PAIR_CATEGORIES.find? (fun cp => symbol ∈ cp.2) with
  | some cp => cp.1
  | none => "other"

/-- One entry of config.PAIR_SPECIFIC_SETTINGS; `none` means the key is
absent (the lookup default applies). -/
structure PairSettings where
  max_leverage : Option ℤ
  min_confidence : Option ℚ
  volatility_threshold : Option ℚ
  min_volume_multiplier : Option ℚ
  deriving Repr, DecidableEq

/-- PAIR_SPECIFIC_SETTINGS.get(symbol, {}). -/
def PAIR_SPECIFIC_SETTINGS (symbol : String) : PairSettings :=
  if symbol = "DOGEUSDT" then ⟨some 3, some 70, some 0.15, some 0.8⟩
  else if symbol = "SHIBUSDT" then ⟨some 3, some 70, some 0.15, some 0.8⟩
  else if symbol = "PEPEUSDT" then ⟨some 2, some 75, some 0.20, some 0.7⟩
  else if symbol = "1000PEPEUSDT" then ⟨some 2, some 75, some 0.20, some 0.7⟩
  else if symbol = "FLOKIUSDT" then ⟨some 3, some 70, some 0.18, some 0.8⟩
  else if symbol = "LINKUSDT" then ⟨some 5, some 65, some 0.08, some 0.9⟩
  else if symbol = "AAVEUSDT" then ⟨some 5, some 65, some 0.08, some 0.9⟩
  else if symbol = "UNIUSDT" then ⟨some 4, some 65, some 0.10, some 0.9⟩
  else if symbol = "MKRUSDT" then ⟨some 4, some 68, some 0.12, some 1⟩
  else if symbol = "CETUSUSDT" then ⟨some 2, some 75, some 0.25, some 1.5⟩
  else if symbol = "SLERFUSDT" then ⟨some 2, some 75, some 0.25, some 1.5⟩
  else if symbol = "SXTUSDT" then ⟨some 3, some 70, some 0.20, some 1.2⟩
  else if symbol = "TIAUSDT" then ⟨some 4, some 68, some 0.15, some 1⟩
  else if symbol = "APEUSDT" then ⟨some 3, some 68, some 0.15, some 0.9⟩
  else if symbol = "SANDUSDT" then ⟨some 4, some 65, some 0.12, some 0.9⟩
  else if symbol = "MANAUSDT" then ⟨some 4, some 65, some 0.12, some 0.9⟩
  else if symbol = "AVAXUSDT" then ⟨some 5, some 62, some 0.10, some 0.8⟩
  else if symbol = "DOTUSDT" then ⟨some 5, some 62, some 0.10, some 0.8⟩
  else if symbol = "MATICUSDT" then ⟨some 5, some 60, some 0.08, some 0.7⟩
  else if symbol = "ATOMUSDT" then ⟨some 4, some 65, some 0.12, some 0.9⟩
  else if symbol = "NEARUSDT" then ⟨some 4, some 65, some 0.12, some 0.9⟩
  else if symbol = "APTUSDT" then ⟨some 4, some 68, some 0.15, some 1⟩
  else if symbol = "SUIUSDT" then ⟨some 4, some 68, some 0.15, some 1⟩
  else ⟨none, none, none, none⟩

/-! ## Signal Synthesizer: signal_generator.SignalGenerator -/

/-- _check_market_conditions: TEST_MODE allows; meme/emerging skip the
filter; the per-category table maps every listed category to True and
defaults to True. -/
def check_market_conditions (cfg : Config) (category : String) : Bool :=
  if cfg.test_mode then true
  else if category = "meme" ∨ category = "emerging" then true
  else if category = "major" ∨ category = "defi" ∨ category = "layer1" ∨
      category = "gaming_nft" ∨ category = "altcoins" ∨ category = "other" then true
  else true

/-- _check_volume_requirements: `none` ticker is the falsy empty dict. -/
def check_volume_requirements (cfg : Config) (symbol : String)
    (ticker : Option Ticker) (category : String) : Bool :=
  match ticker with
  | none => false
  | some t =>
    let min_volume := (min_volumes_by_category cfg category).getD cfg.MIN_VOLUME_USDT
    let multiplier := (PAIR_SPECIFIC_SETTINGS symbol).min_volume_multiplier.getD 1
    decide (t.turnover24h ≥ min_volume * multiplier)

/-- Module-level config.INDICATOR_WEIGHTS (keys are lowercase). -/
def INDICATOR_WEIGHTS : List (String × ℚ) :=
  [("trend_following", 0.25), ("momentum", 0.20), ("volatility", 0.15),
   ("volume", 0.15), ("candlestick", 0.15), ("support_resistance", 0.10)]

/-- signal_generator.SignalGenerator._get_signal_weight. -/
def get_signal_weight (name : String) : ℚ :=
  match INDICATOR_WEIGHTS.find? (fun kw => strContains name.toLower kw.1) with
  | some kw => kw.2
  | none =>
    if strContains name "EMA" then 0.15
    else if strContains name "MACD" then 0.25
    else if strContains name "RSI" then 0.15
    else if strContains name "Pattern" then 0.12
    else if strContains name "Bollinger" then 0.13
    else 0.05

/-- signal_generator.SignalGenerator._calculate_technical_score. -/
def calculate_technical_score (tech : TechnicalAnalysisResult) : ℚ :=
  if tech.signals = [] then 0
  else
    let total_weight := (tech.signals.map (fun s => get_signal_weight s.name)).sum
    let total_score := (tech.signals.map (fun s =>
      (if s.signal = "BUY" then s.strength
       else if s.signal = "SELL" then -s.strength else 0) * get_signal_weight s.name)).sum
    if total_weight = 0 then 0
    else max (-100) (min 100 (total_score / total_weight * 100))

/-- signal_generator.SignalGenerator._calculate_fundamental_score. -/
def calculate_fundamental_score (fund : FundamentalAnalysisResult) : ℚ :=
  if fund.signals = [] then 0
  else
    let total_weight := (fund.signals.map (fun s => impact_weight s.impact)).sum
    let total_score := (fund.signals.map (fun s =>
      (if s.signal = "BUY" then s.strength
       else if s.signal = "SELL" then -s.strength else 0) * impact_weight s.impact)).sum
    if total_weight = 0 then 0
    else max (-100) (min 100 (total_score / total_weight * 100))

/-- The category_weights technical coefficient (shared by
_calculate_enhanced_metrics and _get_category_weights). -/
def category_weight_technical (category : String) : ℚ :=
  if category = "major" then 0.6
  else if category = "defi" then 0.7
  else if category = "layer1" then 0.65
  else if category = "meme" then 0.8
  else if category = "gaming_nft" then 0.75
  else if category = "emerging" then 0.5
  else if category = "altcoins" then 0.7
  else 0.7

/-- The category_weights fundamental coefficient. -/
def category_weight_fundamental (category : String) : ℚ :=
  if category = "major" then 0.4
  else if category = "defi" then 0.3
  else if category = "layer1" then 0.35
  else if category = "meme" then 0.2
  else if category = "gaming_nft" then 0.25
  else if category = "emerging" then 0.5
  else if category = "altcoins" then 0.3
  else 0.3

/-- signal_generator.SignalGenerator._calculate_category_risk. -/
def calculate_category_risk (category : String) (ticker : Option Ticker) : ℚ :=
  let base_risk : ℚ :=
    if category = "major" then 0
    else if category = "defi" then 10
    else if category = "layer1" then 15
    else if category = "meme" then 40
    else if category = "gaming_nft" then 25
    else if category = "emerging" then 35
    else if category = "altcoins" then 20
    else 20
  let price_change_24h := |(ticker.map (fun t => t.price24hPcnt)).getD 0|
  let extra : ℚ :=
    if category = "meme" then
      if price_change_24h > 0.5 then 30
      else if price_change_24h > 0.3 then 15
      else 0
    else
      if price_change_24h > 0.2 then 25
      else if price_change_24h > 0.1 then 10
      else 0
  min (base_risk + extra) 100

/-- signal_generator.SignalGenerator._calculate_base_risk. -/
def calculate_base_risk (tech : TechnicalAnalysisResult)
    (fund : FundamentalAnalysisResult) (ticker : Option Ticker) : ℚ :=
  let high_24h := (ticker.map (fun t => t.highPrice24h)).getD 0
  let low_24h := (ticker.map (fun t => t.lowPrice24h)).getD 0
  let last_price := (ticker.map (fun t => t.lastPrice)).getD 0
  let r1 : ℚ :=
    if high_24h > 0 ∧ low_24h > 0 ∧ last_price > 0 then
      let volatility := (high_24h - low_24h) / last_price
      if volatility > 0.1 then volatility * 40
      else if volatility > 0.05 then volatility * 20
      else 0
    else 0
  let r2 : ℚ :=
    if tech.confidence > 0 ∧ fund.confidence > 0 then
      let confidence_diff := |tech.confidence - fund.confidence|
      if confidence_diff > 30 then confidence_diff * 0.3 else 0
    else 0
  min (r1 + r2 + fund.risk_factors.length * 5) 80

/-- signal_generator.SignalGenerator._determine_market_condition_enhanced. -/
def determine_market_condition_enhanced (tech : TechnicalAnalysisResult)
    (ticker : Option Ticker) (category : String) : String :=
  let trend_signals := tech.signals.filter (fun s => strContains s.name "EMA")
  let base_condition :=
    if trend_signals = [] then "NEUTRAL"
    else
      let buy_signals : ℚ := (trend_signals.filter (fun s => s.signal = "BUY")).length
      let sell_signals : ℚ := (trend_signals.filter (fun s => s.signal = "SELL")).length
      if buy_signals > sell_signals * 1.5 then "TRENDING_UP"
      else if sell_signals > buy_signals * 1.5 then "TRENDING_DOWN"
      else "RANGING"
  let high_24h := (ticker.map (fun t => t.highPrice24h)).getD 0
  let low_24h := (ticker.map (fun t => t.lowPrice24h)).getD 0
  let last_price := (ticker.map (fun t => t.lastPrice)).getD 0
  if high_24h > 0 ∧ low_24h > 0 ∧ last_price > 0 then
    let volatility := (high_24h - low_24h) / last_price
    if category = "meme" ∧ volatility > 0.4 then "MEME_VOLATILE"
    else if category = "meme" ∧ volatility < 0.08 then "MEME_QUIET"
    else if category = "emerging" ∧ volatility > 0.25 then "EMERGING_VOLATILE"
    else if volatility > 0.15 then "VOLATILE"
    else if volatility < 0.03 then "RANGING"
    else base_condition
  else base_condition

/-- signal_generator.SignalGenerator._calculate_volatility_factor_enhanced. -/
def calculate_volatility_factor_enhanced (ticker : Option Ticker)
    (category : String) : ℚ :=
  let high_24h := (ticker.map (fun t => t.highPrice24h)).getD 0
  let low_24h := (ticker.map (fun t => t.lowPrice24h)).getD 0
  let last_price := (ticker.map (fun t => t.lastPrice)).getD 0
  if high_24h > 0 ∧ low_24h > 0 ∧ last_price > 0 then
    let volatility := (high_24h - low_24h) / last_price
    let normalizer : ℚ :=
      if category = "major" then 2
      else if category = "defi" then 3
      else if category = "layer1" then 3
      else if category = "meme" then 6
      else if category = "gaming_nft" then 4
      else if category = "emerging" then 6
      else if category = "altcoins" then 3.5
      else 3
    min (volatility * 100 / normalizer) 40
  else 4

/-- The metrics dict of _calculate_enhanced_metrics (the category and
pair_settings entries are threaded separately). -/
structure Metrics where
  technical_score : ℚ
  fundamental_score : ℚ
  combined_score : ℚ
  risk_score : ℚ
  category_risk : ℚ
  market_condition : String
  volatility_factor : ℚ
  deriving Repr, DecidableEq

/-- signal_generator.SignalGenerator._calculate_enhanced_metrics. -/
def calculate_enhanced_metrics (tech : TechnicalAnalysisResult)
    (fund : FundamentalAnalysisResult) (ticker : Option Ticker)
    (category : String) : Metrics :=
  let tech_score := calculate_technical_score tech
  let fund_score := calculate_fundamental_score fund
  let combined_score := tech_score * category_weight_technical category +
    fund_score * category_weight_fundamental category
  let category_risk := calculate_category_risk category ticker
  let total_risk := calculate_base_risk tech fund ticker + category_risk
  { technical_score := tech_score, fundamental_score := fund_score,
    combined_score := combined_score, risk_score := total_risk,
    category_risk := category_risk,
    market_condition := determine_market_condition_enhanced tech ticker category,
    volatility_factor := calculate_volatility_factor_enhanced ticker category }

/-- The category_min_confidence table in _should_generate_signal_enhanced. -/
def category_min_confidence (category : String) : ℚ :=
  if category = "major" then 50
  else if category = "defi" then 55
  else if category = "layer1" then 55
  else if category = "meme" then 60
  else if category = "gaming_nft" then 58
  else if category = "emerging" then 62
  else if category = "altcoins" then 53
  else 53

/-- The category_max_risk table in _should_generate_signal_enhanced. -/
def category_max_risk (category : String) : ℚ :=
  if category = "major" then 70
  else if category = "defi" then 75
  else if category = "layer1" then 75
  else if category = "meme" then 90
  else if category = "gaming_nft" then 80
  else if category = "emerging" then 90
  else if category = "altcoins" then 75
  else 75

/-- signal_generator.SignalGenerator._should_generate_signal_enhanced. -/
def should_generate_signal_enhanced (m : Metrics)
    (tech : TechnicalAnalysisResult) (fund : FundamentalAnalysisResult)
    (category : String) (ps : PairSettings) : Bool :=
  let min_confidence := ps.min_confidence.getD (category_min_confidence category)
  if max tech.confidence fund.confidence < min_confidence then false
  else if m.risk_score > category_max_risk category then false
  else
    let min_signal_strength : ℚ :=
      if category = "meme" ∨ category = "emerging" then 12 else 8
    if |m.combined_score| < min_signal_strength then false
    else
      let volatility_threshold :=
        if category = "meme" then (0.35 : ℚ)
        else if category = "emerging" then 0.30
        else ps.volatility_threshold.getD 0.20
      if m.volatility_factor > volatility_threshold * 100 then false
      else true

/-- The base_thresholds table in _determine_signal_type_enhanced. -/
def signal_type_base_threshold (category : String) : ℚ :=
  if category = "major" then 7
  else if category = "defi" then 8
  else if category = "layer1" then 8
  else if category = "meme" then 10
  else if category = "gaming_nft" then 9
  else if category = "emerging" then 10
  else if category = "altcoins" then 7
  else 7

/-- signal_generator.SignalGenerator._determine_signal_type_enhanced. -/
def determine_signal_type_enhanced (m : Metrics)
    (tech : TechnicalAnalysisResult) (fund : FundamentalAnalysisResult)
    (category : String) : String :=
  let max_confidence := max tech.confidence fund.confidence
  let threshold0 := signal_type_base_threshold category
  let threshold1 :=
    if max_confidence > 70 then threshold0 - 2
    else if max_confidence > 60 then threshold0 - 1
    else threshold0
  let threshold := max threshold1 5
  if m.combined_score > threshold then "BUY"
  else if m.combined_score < -threshold then "SELL"
  else "NEUTRAL"

/-- signal_generator.SignalGenerator._calculate_optimal_leverage. -/
def calculate_optimal_leverage (m : Metrics) : ℤ :=
  let base1 : ℤ :=
    if m.risk_score > 60 then 1
    else if m.risk_score > 40 then 2
    else 3
  let base2 := if m.volatility_factor > 20 then max 1 (base1 - 1) else base1
  if |m.combined_score| > 70 then min 5 (base2 + 1)
  else if |m.combined_score| > 50 then min 4 (base2 + 1)
  else base2

def listMax : List ℚ → Option ℚ
  | [] => none
  | x :: xs => some (xs.foldl max x)

def listMin : List ℚ → Option ℚ
  | [] => none
  | x :: xs => some (xs.foldl min x)

/-- The atr_multipliers table in _calculate_stop_loss_enhanced. -/
def atr_multiplier_of (category : String) : ℚ :=
  if category = "major" then 1.8
  else if category = "defi" then 2.2
  else if category = "layer1" then 2.2
  else if category = "meme" then 2.8
  else if category = "gaming_nft" then 2.5
  else if category = "emerging" then 2.8
  else if category = "altcoins" then 2.2
  else 2.2

/-- signal_generator.SignalGenerator._calculate_stop_loss_enhanced.
max(iterable, default=0) keeps only filtered supports; min(..,
default=inf) leaves the SELL stop unadjusted when no resistance is above
the price. -/
def calculate_stop_loss_enhanced (signal_type : String) (current_price : ℚ)
    (tech : TechnicalAnalysisResult) (bars : List Bar) (category : String) : ℚ :=
  let atr := atr14 bars current_price
  let atr_multiplier := atr_multiplier_of category
  if signal_type = "BUY" then
    let stop0 := current_price - atr * atr_multiplier
    if tech.support_levels = [] then stop0
    else
      let nearest_support :=
        (listMax (tech.support_levels.filter (fun s => s < current_price))).getD 0
      if nearest_support > 0 then max stop0 (nearest_support - atr * 0.5)
      else stop0
  else
    let stop0 := current_price + atr * atr_multiplier
    if tech.resistance_levels = [] then stop0
    else
      match listMin (tech.resistance_levels.filter (fun r => r > current_price)) with
      | none => stop0
      | some nearest_resistance => min stop0 (nearest_resistance + atr * 0.5)

/-- The risk_reward_ratios table in _calculate_take_profits_safe. -/
def risk_reward_ratios (category : String) : ℚ × ℚ :=
  if category = "major" then (2, 3.5)
  else if category = "defi" then (2.5, 4)
  else if category = "layer1" then (2.5, 4)
  else if category = "meme" then (1.8, 3)
  else if category = "gaming_nft" then (2, 3.5)
  else if category = "emerging" then (2, 3.5)
  else if category = "altcoins" then (2.2, 3.8)
  else (2, 3.5)

/-- signal_generator.SignalGenerator._calculate_take_profits_safe. -/
def calculate_take_profits_safe (signal_type : String)
    (current_price stop_distance : ℚ) (category : String) : List ℚ :=
  let rr := risk_reward_ratios category
  if signal_type = "BUY" then
    let tp1 := current_price + stop_distance * rr.1
    let tp2 := current_price + stop_distance * rr.2
    if tp1 > current_price ∧ tp2 > current_price ∧ tp2 > tp1 then [tp1, tp2]
    else []
  else
    let tp1 := current_price - stop_distance * rr.1
    let tp2 := current_price - stop_distance * rr.2
    if tp1 < current_price ∧ tp2 < current_price ∧ tp2 < tp1 then [tp1, tp2]
    else []

/-- The max_leverage_by_category table. -/
def max_leverage_by_category (category : String) : ℤ :=
  if category = "major" then 10
  else if category = "defi" then 5
  else if category = "layer1" then 5
  else if category = "meme" then 3
  else if category = "gaming_nft" then 5
  else if category = "emerging" then 2
  else if category = "altcoins" then 5
  else 5

/-- The category_risk_multipliers table. -/
def category_risk_multiplier (category : String) : ℚ :=
  if category = "major" then 1
  else if category = "defi" then 0.8
  else if category = "layer1" then 0.8
  else if category = "meme" then 0.5
  else if category = "gaming_nft" then 0.7
  else if category = "emerging" then 0.4
  else if category = "altcoins" then 0.8
  else 0.8

/-- The max_stop_distance table. -/
def max_stop_distance (category : String) : ℚ :=
  if category = "major" then 0.06
  else if category = "defi" then 0.08
  else if category = "layer1" then 0.08
  else if category = "meme" then 0.12
  else if category = "gaming_nft" then 0.10
  else if category = "emerging" then 0.12
  else if category = "altcoins" then 0.08
  else 0.08

/-- The max_position_pct table. -/
def max_position_pct (category : String) : ℚ :=
  if category = "major" then 0.15
  else if category = "defi" then 0.12
  else if category = "layer1" then 0.12
  else if category = "meme" then 0.08
  else if category = "gaming_nft" then 0.10
  else if category = "emerging" then 0.06
  else if category = "altcoins" then 0.10
  else 0.10

/-- The trade-parameter dict returned by
_calculate_trade_parameters_enhanced. -/
structure TradeParams where
  entry_price : ℚ
  stop_loss : ℚ
  take_profit_1 : ℚ
  take_profit_2 : ℚ
  leverage : ℤ
  position_size : ℚ
  risk_amount : ℚ
  stop_distance_pct : ℚ
  category : String
  risk_multiplier : ℚ
  deriving Repr, DecidableEq

/-- signal_generator.SignalGenerator._calculate_trade_parameters_enhanced.
An empty frame raises on iloc[-1]; the blanket except returns None. -/
def calculate_trade_parameters_enhanced (cfg : Config) (signal_type : String)
    (bars : List Bar) (tech : TechnicalAnalysisResult) (m : Metrics)
    (account_balance : ℚ) (category : String) (ps : PairSettings) :
    Option TradeParams :=
  match ilocNeg (closes bars) 1 with
  | none => none
  | some current_price =>
    let pair_max_leverage := ps.max_leverage.getD (max_leverage_by_category category)
    let leverage := min (min (calculate_optimal_leverage m) pair_max_leverage)
      cfg.MAX_LEVERAGE
    let risk_multiplier := category_risk_multiplier category
    let risk_amount := account_balance * (cfg.MAX_RISK_PER_TRADE / 100) * risk_multiplier
    let stop_loss := calculate_stop_loss_enhanced signal_type current_price tech bars category
    if stop_loss ≤ 0 then none
    else
      let sd : Option ℚ :=
        if signal_type = "BUY" then
          if stop_loss ≥ current_price then none else some (current_price - stop_loss)
        else
          if stop_loss ≤ current_price then none else some (stop_loss - current_price)
      match sd with
      | none => none
      | some stop_distance =>
        let stop_distance_pct := stop_distance / current_price
        if stop_distance_pct ≤ 0 ∨ stop_distance_pct > max_stop_distance category then none
        else
          let position_size0 := risk_amount / stop_distance_pct * (leverage : ℚ)
          let max_position := account_balance * (leverage : ℚ) * max_position_pct category
          let position_size := min position_size0 max_position
          match calculate_take_profits_safe signal_type current_price stop_distance category with
          | tp1 :: tp2 :: _ =>
            some { entry_price := current_price, stop_loss := stop_loss,
                   take_profit_1 := tp1, take_profit_2 := tp2,
                   leverage := leverage, position_size := position_size,
                   risk_amount := risk_amount,
                   stop_distance_pct := stop_distance_pct,
                   category := category, risk_multiplier := risk_multiplier }
          | _ => none

/-- signal_generator.SignalGenerator._create_enhanced_trading_signal
(numeric fields; the summary strings and risk-factor list are
presentation only). -/
def create_enhanced_trading_signal (symbol signal_type : String)
    (p : TradeParams) (tech : TechnicalAnalysisResult)
    (fund : FundamentalAnalysisResult) (m : Metrics) (category : String) :
    TradingSignal :=
  let combined_confidence := tech.confidence * category_weight_technical category +
    fund.confidence * category_weight_fundamental category
  let final_confidence := max (combined_confidence - m.risk_score * 0.15) 50
  { symbol := symbol, signal_type := signal_type,
    entry_price := p.entry_price, stop_loss := p.stop_loss,
    take_profit_1 := p.take_profit_1, take_profit_2 := p.take_profit_2,
    leverage := p.leverage, confidence := final_confidence,
    risk_amount := p.risk_amount, position_size := p.position_size,
    category := category }

/-- signal_generator.SignalGenerator.generate_signal.  The technical and
fundamental analyzers are pure; their results enter as arguments (the
source computes them between the volume gate and the metrics step). -/
def generate_signal (cfg : Config) (symbol : String) (bars : List Bar)
    (ticker : Option Ticker) (tech : TechnicalAnalysisResult)
    (fund : FundamentalAnalysisResult) (account_balance : ℚ) :
    Option TradingSignal :=
  let category := get_pair_category symbol
  if bars = [] then none
  else if symbol ≠ "BTCUSDT" ∧ check_market_conditions cfg category = false then none
  else if check_volume_requirements cfg symbol ticker category = false then none
  else
    let ps := PAIR_SPECIFIC_SETTINGS symbol
    let m := calculate_enhanced_metrics tech fund ticker category
    if should_generate_signal_enhanced m tech fund category ps = false then none
    else
      let signal_type := determine_signal_type_enhanced m tech fund category
      if signal_type = "NEUTRAL" then none
      else
        match calculate_trade_parameters_enhanced cfg signal_type bars tech m
            account_balance category ps with
        | none => none
        | some p => some (create_enhanced_trading_signal symbol signal_type p
            tech fund m category)

/-! ## Claims about the distribution gate -/

/-- C4: for every admin destination (the spec's gate order checks
activity first, so the destination is active), can_receive_signal
returns (True, ...) regardless of the signal category, the subscription
tier, and the daily sent-count. -/
theorem admin_always_receives (cs : ChatSettings) (category : String)
    (hact : cs.active = true) (hadm : cs.is_admin = true) :
    (can_receive_signal (some cs) category).1 = true := by
  simp [can_receive_signal, hact, hadm]

/-- Witness for C4: an active admin on the FREE tier far past the FREE
daily cap still receives a meme-category signal. -/
theorem admin_always_receives_witness :
    (({ active := true, is_admin := true, tier := "FREE",
        signals_sent_today := 999 } : ChatSettings).active = true) ∧
    (can_receive_signal
      (some { active := true, is_admin := true, tier := "FREE",
              signals_sent_today := 999 }) "meme").1 = true :=
  ⟨rfl, admin_always_receives
    { active := true, is_admin := true, tier := "FREE",
      signals_sent_today := 999 } "meme" rfl rfl⟩

/-- C10: for category 'other', every non-admin active destination at
tier BASIC, PREMIUM or VIP receives the signal regardless of its daily
sent-count: the early 'other' return precedes the daily-cap check. -/
theorem other_category_skips_daily_cap (cs : ChatSettings)
    (hact : cs.active = true) (hadm : cs.is_admin = false)
    (htier : cs.tier = "BASIC" ∨ cs.tier = "PREMIUM" ∨ cs.tier = "VIP") :
    (can_receive_signal (some cs) "other").1 = true := by
  rcases htier with h | h | h <;> simp [can_receive_signal, hact, hadm, h]

/-- Witness for C10: a non-admin BASIC destination with 1000 signals
already sent today (far past the BASIC cap of 15) still receives an
'other'-category signal. -/
theorem other_category_skips_daily_cap_witness :
    (({ active := true, is_admin := false, tier := "BASIC",
        signals_sent_today := 1000 } : ChatSettings).active = true) ∧
    (can_receive_signal
      (some { active := true, is_admin := false, tier := "BASIC",
              signals_sent_today := 1000 }) "other").1 = true :=
  ⟨rfl, other_category_skips_daily_cap
    { active := true, is_admin := false, tier := "BASIC",
      signals_sent_today := 1000 } rfl rfl (Or.inl rfl)⟩

/-- C3 counterexample: a non-admin active BASIC destination exactly at
the BASIC daily cap of 15 still gets (True, ...) for category 'other',
so the cap does not block every signal category. -/
theorem daily_cap_counterexample :
    ((subscription_tiers "BASIC").getD free_tier).max_signals_per_day = 15 ∧
    (15 : ℤ) ≤ ((15 : ℕ) : ℤ) ∧
    (can_receive_signal
      (some { active := true, is_admin := false, tier := "BASIC",
              signals_sent_today := 15 }) "other").1 = true := by
  refine ⟨by decide, by decide, ?_⟩
  decide

/-- C3 (amended): a non-admin active destination whose tier has a
positive daily cap and whose sent-count has reached it is refused for
every signal category except 'other'. -/
theorem daily_cap_blocks_non_other (cs : ChatSettings) (category : String)
    (hact : cs.active = true) (hadm : cs.is_admin = false)
    (hcap : 0 < ((subscription_tiers cs.tier).getD free_tier).max_signals_per_day)
    (hsent : ((subscription_tiers cs.tier).getD free_tier).max_signals_per_day ≤
      (cs.signals_sent_today : ℤ))
    (hcat : category ≠ "other") :
    (can_receive_signal (some cs) category).1 = false := by
  simp only [can_receive_signal, hact, hadm, hcat, if_false, Bool.false_eq_true]
  split
  · rfl
  · split
    · split
      · rfl
      · rename_i hmem hnot
        exact absurd ⟨hcap, hsent⟩ hnot
    · rfl

/-- Witness for amended C3: a FREE-tier destination at its exact cap of
5 is refused a major-category signal. -/
theorem daily_cap_blocks_non_other_witness :
    (({ active := true, is_admin := false, tier := "FREE",
        signals_sent_today := 5 } : ChatSettings).active = true) ∧
    (0 : ℤ) < ((subscription_tiers "FREE").getD free_tier).max_signals_per_day ∧
    (can_receive_signal
      (some { active := true, is_admin := false, tier := "FREE",
              signals_sent_today := 5 }) "major").1 = false :=
  ⟨rfl, by decide, daily_cap_blocks_non_other
    { active := true, is_admin := false, tier := "FREE",
      signals_sent_today := 5 } "major" rfl rfl (by decide) (by decide)
    (by decide)⟩

/-! ## Claims about the fundamental scorer -/

/-- C6 counterexample: two HIGH-impact signals, one BUY of strength 0.3
and one NEUTRAL, give normalized scores 15 and 0 — a gap of exactly 15
points — yet the scorer returns NEUTRAL, because the source requires a
strict `buy_score > sell_score + 15`. -/
theorem fundamental_gap_15_counterexample :
    fundamentalBuyScore
        [{ name := "Volume", value := 0, signal := "BUY", strength := 0.3,
           description := "v", impact := "HIGH" },
         { name := "Funding", value := 0, signal := "NEUTRAL", strength := 0.5,
           description := "f", impact := "HIGH" }] -
      fundamentalSellScore
        [{ name := "Volume", value := 0, signal := "BUY", strength := 0.3,
           description := "v", impact := "HIGH" },
         { name := "Funding", value := 0, signal := "NEUTRAL", strength := 0.5,
           description := "f", impact := "HIGH" }] = 15 ∧
    (calculate_overall_fundamental_signal
        [{ name := "Volume", value := 0, signal := "BUY", strength := 0.3,
           description := "v", impact := "HIGH" },
         { name := "Funding", value := 0, signal := "NEUTRAL", strength := 0.5,
           description := "f", impact := "HIGH" }]).1 = "NEUTRAL" := by
  constructor
  · simp +decide only [fundamentalBuyScore, fundamentalSellScore,
      fundamentalBuyRaw, fundamentalSellRaw, fundamentalTotalWeight,
      impact_weight, List.map_cons, List.map_nil, List.sum_cons, List.sum_nil]
    norm_num
  · simp +decide only [calculate_overall_fundamental_signal,
      fundamentalBuyScore, fundamentalSellScore, fundamentalBuyRaw,
      fundamentalSellRaw, fundamentalTotalWeight, impact_weight,
      List.map_cons, List.map_nil, List.sum_cons, List.sum_nil]
    norm_num

/-- C6 (amended): the overall fundamental signal is non-NEUTRAL exactly
when the impact-weighted normalized BUY and SELL scores differ by
strictly more than 15 points, and the returned confidence never exceeds
90 for any input signal list. -/
theorem fundamental_nonneutral_iff_gap (signals : List FundamentalSignal) :
    ((calculate_overall_fundamental_signal signals).1 ≠ "NEUTRAL" ↔
      15 < |fundamentalBuyScore signals - fundamentalSellScore signals|) ∧
    (calculate_overall_fundamental_signal signals).2 ≤ 90 := by
  unfold calculate_overall_fundamental_signal
  split
  · rename_i hemp
    subst hemp
    constructor
    · simp [fundamentalBuyScore, fundamentalSellScore, fundamentalTotalWeight,
        fundamentalBuyRaw, fundamentalSellRaw]
    · norm_num
  · set b := fundamentalBuyScore signals with hb
    set s := fundamentalSellScore signals with hs
    split
    · rename_i hgt
      constructor
      · simp only [ne_eq]
        constructor
        · intro _
          rw [abs_of_pos (by linarith)]
          linarith
        · intro _
          decide
      · exact min_le_right _ _
    · split
      · rename_i hlt
        constructor
        · simp only [ne_eq]
          constructor
          · intro _
            rw [abs_of_neg (by linarith)]
            linarith
          · intro _
            decide
        · exact min_le_right _ _
      · rename_i h1 h2
        constructor
        · simp only [ne_eq, not_true_eq_false, false_iff, not_lt]
          rcases abs_cases (b - s) with ⟨heq, _⟩ | ⟨heq, _⟩ <;> rw [heq] <;> linarith
        · have habs : 0 ≤ |b - s| := abs_nonneg _
          have : 50 - |b - s| ≤ 90 := by linarith
          exact max_le this (by norm_num)

/-! ## Claims about the volume gate -/

/-- The scaled category minimum the volume gate compares turnover
against: MIN_VOLUMES_BY_CATEGORY (default MIN_VOLUME_USDT) times the
pair-specific min_volume_multiplier (default 1). -/
def min_volume_required (cfg : Config) (symbol : String) : ℚ :=
  (min_volumes_by_category cfg (get_pair_category symbol)).getD cfg.MIN_VOLUME_USDT *
    (PAIR_SPECIFIC_SETTINGS symbol).min_volume_multiplier.getD 1

/-- C5: the volume gate passes exactly at the boundary — a 24h turnover
equal to the scaled category minimum passes the check, and any turnover
below it fails the check and makes the synthesizer emit no signal for
the symbol. -/
theorem volume_gate_boundary (cfg : Config) (symbol : String) (t : Ticker)
    (bars : List Bar) (tech : TechnicalAnalysisResult)
    (fund : FundamentalAnalysisResult) (balance : ℚ) :
    (t.turnover24h = min_volume_required cfg symbol →
      check_volume_requirements cfg symbol (some t) (get_pair_category symbol) = true) ∧
    (t.turnover24h < min_volume_required cfg symbol →
      check_volume_requirements cfg symbol (some t) (get_pair_category symbol) = false ∧
      generate_signal cfg symbol bars (some t) tech fund balance = none) := by
  constructor
  · intro heq
    rw [min_volume_required] at heq
    simp only [check_volume_requirements, heq, ge_iff_le, le_refl]
    rfl
  · intro hlt
    rw [min_volume_required] at hlt
    have hfalse : check_volume_requirements cfg symbol (some t)
        (get_pair_category symbol) = false := by
      simp only [check_volume_requirements, decide_eq_false_iff_not, not_le]
      exact hlt
    refine ⟨hfalse, ?_⟩
    simp [generate_signal, hfalse]

/-- Witness for C5: BTCUSDT (major category, minimum 50,000,000 after
the moderate 0.5 volume multiplier, pair multiplier 1): turnover exactly
50,000,000 passes, 49,999,999 fails and generates no signal. -/
theorem volume_gate_boundary_witness :
    check_volume_requirements defaultConfig "BTCUSDT"
      (some { lastPrice := 100, highPrice24h := 101, lowPrice24h := 99,
              turnover24h := 50000000, price24hPcnt := 0 })
      (get_pair_category "BTCUSDT") = true ∧
    (check_volume_requirements defaultConfig "BTCUSDT"
      (some { lastPrice := 100, highPrice24h := 101, lowPrice24h := 99,
              turnover24h := 49999999, price24hPcnt := 0 })
      (get_pair_category "BTCUSDT") = false ∧
     generate_signal defaultConfig "BTCUSDT" []
      (some { lastPrice := 100, highPrice24h := 101, lowPrice24h := 99,
              turnover24h := 49999999, price24hPcnt := 0 })
      { symbol := "BTCUSDT", timeframe := "4h", signals := [],
        overall_signal := "NEUTRAL", confidence := 0, price_targets := [],
        stop_loss := 0, support_levels := [], resistance_levels := [] }
      { symbol := "BTCUSDT", signals := [], overall_signal := "NEUTRAL",
        confidence := 0, risk_factors := [], market_sentiment := "NEUTRAL" }
      10000 = none) :=
  ⟨(volume_gate_boundary defaultConfig "BTCUSDT"
      { lastPrice := 100, highPrice24h := 101, lowPrice24h := 99,
        turnover24h := 50000000, price24hPcnt := 0 } []
      { symbol := "BTCUSDT", timeframe := "4h", signals := [],
        overall_signal := "NEUTRAL", confidence := 0, price_targets := [],
        stop_loss := 0, support_levels := [], resistance_levels := [] }
      { symbol := "BTCUSDT", signals := [], overall_signal := "NEUTRAL",
        confidence := 0, risk_factors := [], market_sentiment := "NEUTRAL" }
      10000).1 (by with_unfolding_all rfl),
   (volume_gate_boundary defaultConfig "BTCUSDT"
      { lastPrice := 100, highPrice24h := 101, lowPrice24h := 99,
        turnover24h := 49999999, price24hPcnt := 0 } []
      { symbol := "BTCUSDT", timeframe := "4h", signals := [],
        overall_signal := "NEUTRAL", confidence := 0, price_targets := [],
        stop_loss := 0, support_levels := [], resistance_levels := [] }
      { symbol := "BTCUSDT", signals := [], overall_signal := "NEUTRAL",
        confidence := 0, risk_factors := [], market_sentiment := "NEUTRAL" }
      10000).2 (by
        rw [show min_volume_required defaultConfig "BTCUSDT" = 50000000 from by
          with_unfolding_all rfl]
        norm_num)⟩

/-! ## Claims about take-profit derivation -/

/-- Take-profit derivation as claim C2 words it (refinement-comparison
definition following the spec, for contrast with
calculate_take_profits_safe): derive the two risk/reward-multiple
targets, clamp them against the nearest one or two support/resistance
levels on the profit side (with the 0.995/1.02 resp. 1.005/0.98 margins
the technical analyzer uses for its own targets), discard the clamped
values when they violate the ordering invariant and re-derive from the
pure multiples, and reject (none) only if the pure-multiple targets are
still invalid. -/
def spec_take_profits_clamped (signal_type : String)
    (current_price stop_distance : ℚ) (category : String)
    (profit_side_levels : List ℚ) : Option (ℚ × ℚ) :=
  let rr := risk_reward_ratios category
  if signal_type = "BUY" then
    let pure1 := current_price + stop_distance * rr.1
    let pure2 := current_price + stop_distance * rr.2
    let c1 := match profit_side_levels with
      | [] => pure1
      | r :: _ => min pure1 (r * 0.995)
    let c2 := match profit_side_levels with
      | [] => pure2
      | _ :: r2 :: _ => min pure2 (r2 * 0.995)
      | r :: _ => min pure2 (r * 1.02)
    if current_price < c1 ∧ c1 < c2 then some (c1, c2)
    else if current_price < pure1 ∧ pure1 < pure2 then some (pure1, pure2)
    else none
  else
    let pure1 := current_price - stop_distance * rr.1
    let pure2 := current_price - stop_distance * rr.2
    let c1 := match profit_side_levels with
      | [] => pure1
      | s :: _ => max pure1 (s * 1.005)
    let c2 := match profit_side_levels with
      | [] => pure2
      | _ :: s2 :: _ => max pure2 (s2 * 1.005)
      | s :: _ => max pure2 (s * 0.98)
    if c1 < current_price ∧ c2 < c1 then some (c1, c2)
    else if pure1 < current_price ∧ pure2 < pure1 then some (pure1, pure2)
    else none

/-- C2 counterexample: a BUY with entry 100, stop distance 10, category
major, and a resistance level at 110 on the profit side.  The clamp the
claim describes would yield take_profit_1 = 109.45 (valid ordering, so
per the claim it must be kept) — but the code's derivation never
consults support/resistance and returns the unclamped pure multiples
(120, 135). -/
theorem take_profit_clamp_counterexample :
    calculate_take_profits_safe "BUY" 100 10 "major" = [120, 135] ∧
    spec_take_profits_clamped "BUY" 100 10 "major" [110, 150] =
      some (2189 / 20, 135) ∧
    ¬ ((120 : ℚ) = 2189 / 20) := by
  refine ⟨by with_unfolding_all rfl, by with_unfolding_all rfl, by norm_num⟩

/-- For every category string the first risk/reward multiple is positive
and below the second. -/
theorem risk_reward_ratios_sorted (category : String) :
    0 < (risk_reward_ratios category).1 ∧
    (risk_reward_ratios category).1 < (risk_reward_ratios category).2 := by
  unfold risk_reward_ratios
  split_ifs <;> norm_num

/-- C2 (amended): the synthesizer's take-profit derivation performs no
support/resistance adjustment (levels are not even inputs): whenever the
stop distance is positive it returns exactly the two pure risk/reward
multiples of the stop distance, and it rejects (returns no targets)
exactly when the stop distance is non-positive, i.e. when the
pure-multiple targets violate the ordering invariant. -/
theorem take_profits_pure_multiples (signal_type : String)
    (current_price stop_distance : ℚ) (category : String) :
    (0 < stop_distance →
      calculate_take_profits_safe signal_type current_price stop_distance category =
        if signal_type = "BUY" then
          [current_price + stop_distance * (risk_reward_ratios category).1,
           current_price + stop_distance * (risk_reward_ratios category).2]
        else
          [current_price - stop_distance * (risk_reward_ratios category).1,
           current_price - stop_distance * (risk_reward_ratios category).2]) ∧
    (stop_distance ≤ 0 →
      calculate_take_profits_safe signal_type current_price stop_distance category = []) := by
  obtain ⟨h1, h2⟩ := risk_reward_ratios_sorted category
  constructor
  · intro hsd
    simp only [calculate_take_profits_safe]
    split
    · rw [if_pos ⟨by nlinarith, by nlinarith, by nlinarith⟩]
    · rw [if_pos ⟨by nlinarith, by nlinarith, by nlinarith⟩]
  · intro hsd
    simp only [calculate_take_profits_safe]
    split
    · rw [if_neg (by rintro ⟨ha, -, -⟩; nlinarith)]
    · rw [if_neg (by rintro ⟨ha, -, -⟩; nlinarith)]

/-- Witness for amended C2: a major-category BUY with entry 100 and stop
distance 10 yields the pure multiples; a SELL with non-positive stop
distance is rejected. -/
theorem take_profits_pure_multiples_witness :
    (calculate_take_profits_safe "BUY" 100 10 "major" =
      if "BUY" = "BUY" then
        [100 + 10 * (risk_reward_ratios "major").1,
         100 + 10 * (risk_reward_ratios "major").2]
      else
        [100 - 10 * (risk_reward_ratios "major").1,
         100 - 10 * (risk_reward_ratios "major").2]) ∧
    calculate_take_profits_safe "SELL" 100 (-1) "major" = [] :=
  ⟨(take_profits_pure_multiples "BUY" 100 10 "major").1 (by norm_num),
   (take_profits_pure_multiples "SELL" 100 (-1) "major").2 (by norm_num)⟩

/-! ## Claims about the stop-loss derivation -/

/-- The ATR value used for stops is positive whenever the price is:
the rolling mean of true ranges falls back to 2 percent of price when it
is NaN or non-positive. -/
theorem atr14_pos (bars : List Bar) (cp : ℚ) (hcp : 0 < cp) :
    0 < atr14 bars cp := by
  unfold atr14
  split
  · nlinarith
  · split
    · nlinarith
    · rename_i hnot
      exact lt_of_not_le hnot

/-- Every category's ATR multiplier is positive. -/
theorem atr_multiplier_pos (category : String) :
    0 < atr_multiplier_of category := by
  unfold atr_multiplier_of
  split_ifs <;> norm_num

theorem foldl_max_mem (xs : List ℚ) :
    ∀ acc : ℚ, xs.foldl max acc = acc ∨ xs.foldl max acc ∈ xs := by
  induction xs with
  | nil => intro acc; exact Or.inl rfl
  | cons x xs ih =>
    intro acc
    rw [List.foldl_cons]
    rcases ih (max acc x) with h | h
    · rw [h]
      rcases max_choice acc x with h2 | h2
      · exact Or.inl h2
      · exact Or.inr (by rw [h2]; exact List.mem_cons_self x xs)
    · exact Or.inr (List.mem_cons_of_mem x h)

theorem listMax_mem {xs : List ℚ} {v : ℚ} (h : listMax xs = some v) :
    v ∈ xs := by
  cases xs with
  | nil => simp [listMax] at h
  | cons x xs =>
    simp only [listMax, Option.some.injEq] at h
    rcases foldl_max_mem xs x with h2 | h2
    · rw [← h, h2]; exact List.mem_cons_self x xs
    · rw [← h]; exact List.mem_cons_of_mem x h2

theorem foldl_min_mem (xs : List ℚ) :
    ∀ acc : ℚ, xs.foldl min acc = acc ∨ xs.foldl min acc ∈ xs := by
  induction xs with
  | nil => intro acc; exact Or.inl rfl
  | cons x xs ih =>
    intro acc
    rw [List.foldl_cons]
    rcases ih (min acc x) with h | h
    · rw [h]
      rcases min_choice acc x with h2 | h2
      · exact Or.inl h2
      · exact Or.inr (by rw [h2]; exact List.mem_cons_self x xs)
    · exact Or.inr (List.mem_cons_of_mem x h)

theorem listMin_mem {xs : List ℚ} {v : ℚ} (h : listMin xs = some v) :
    v ∈ xs := by
  cases xs with
  | nil => simp [listMin] at h
  | cons x xs =>
    simp only [listMin, Option.some.injEq] at h
    rcases foldl_min_mem xs x with h2 | h2
    · rw [← h, h2]; exact List.mem_cons_self x xs
    · rw [← h]; exact List.mem_cons_of_mem x h2

/-- C9: for every input with positive current price the stop-loss
derivation returns a value strictly below the entry for BUY and strictly
above it for SELL — both the ATR term and the support/resistance
adjustment preserve the correct side, so the wrong-side rejection branch
of the trade-parameter computation never fires. -/
theorem stop_loss_correct_side (signal_type : String) (current_price : ℚ)
    (tech : TechnicalAnalysisResult) (bars : List Bar) (category : String)
    (hcp : 0 < current_price) :
    (signal_type = "BUY" →
      calculate_stop_loss_enhanced signal_type current_price tech bars category <
        current_price) ∧
    (signal_type = "SELL" →
      current_price <
        calculate_stop_loss_enhanced signal_type current_price tech bars category) := by
  have hatr := atr14_pos bars current_price hcp
  have hmul := atr_multiplier_pos category
  constructor
  · intro hst
    subst hst
    simp only [calculate_stop_loss_enhanced, if_pos]
    split
    · nlinarith
    · cases hm : listMax (tech.support_levels.filter fun s => s < current_price) with
      | none =>
        simp only [hm, Option.getD_none]
        rw [if_neg (by norm_num)]
        nlinarith
      | some v =>
        have hv := listMax_mem hm
        have hvlt : v < current_price := by
          have := (List.mem_filter.mp hv).2
          exact of_decide_eq_true this
        simp only [hm, Option.getD_some]
        split
        · refine max_lt (by nlinarith) (by nlinarith)
        · nlinarith
  · intro hst
    subst hst
    simp only [calculate_stop_loss_enhanced]
    rw [if_neg (by decide)]
    split
    · nlinarith
    · split
      · nlinarith
      · rename_i nr hm
        have hv := listMin_mem hm
        have hvgt : current_price < nr := by
          have := (List.mem_filter.mp hv).2
          exact of_decide_eq_true this
        exact lt_min (by nlinarith) (by nlinarith)

/-- Witness for C9: with a single support at 95 the BUY stop lands at
96.4 < 100; with a single resistance at 104 the SELL stop lands at
103.6 > 100 (empty klines exercise the 2 percent ATR fallback). -/
theorem stop_loss_correct_side_witness :
    calculate_stop_loss_enhanced "BUY" 100
      { symbol := "X", timeframe := "4h", signals := [],
        overall_signal := "NEUTRAL", confidence := 0, price_targets := [],
        stop_loss := 0, support_levels := [95], resistance_levels := [] }
      [] "major" < 100 ∧
    100 < calculate_stop_loss_enhanced "SELL" 100
      { symbol := "X", timeframe := "4h", signals := [],
        overall_signal := "NEUTRAL", confidence := 0, price_targets := [],
        stop_loss := 0, support_levels := [], resistance_levels := [104] }
      [] "major" :=
  ⟨(stop_loss_correct_side "BUY" 100
      { symbol := "X", timeframe := "4h", signals := [],
        overall_signal := "NEUTRAL", confidence := 0, price_targets := [],
        stop_loss := 0, support_levels := [95], resistance_levels := [] }
      [] "major" (by norm_num)).1 rfl,
   (stop_loss_correct_side "SELL" 100
      { symbol := "X", timeframe := "4h", signals := [],
        overall_signal := "NEUTRAL", confidence := 0, price_targets := [],
        stop_loss := 0, support_levels := [], resistance_levels := [104] }
      [] "major" (by norm_num)).2 rfl⟩

/-! ## Claim C1: ordering invariant of emitted trading signals -/

/-- When the safe take-profit computation returns at least two values,
they are strictly ordered on the correct side of the entry. -/
theorem take_profits_ordering (signal_type : String) (cp sd : ℚ)
    (category : String) (tp1 tp2 : ℚ) (rest : List ℚ)
    (h : calculate_take_profits_safe signal_type cp sd category =
      tp1 :: tp2 :: rest) :
    (signal_type = "BUY" → cp < tp1 ∧ tp1 < tp2) ∧
    (signal_type ≠ "BUY" → tp2 < tp1 ∧ tp1 < cp) := by
  simp only [calculate_take_profits_safe] at h
  constructor
  · intro hst
    rw [if_pos hst] at h
    split at h
    · rename_i hc
      obtain ⟨h1, h2, h3⟩ := hc
      simp only [List.cons.injEq] at h
      obtain ⟨h4, h5, -⟩ := h
      subst h4; subst h5
      exact ⟨h1, h3⟩
    · exact absurd h (by simp)
  · intro hst
    rw [if_neg hst] at h
    split at h
    · rename_i hc
      obtain ⟨h1, h2, h3⟩ := hc
      simp only [List.cons.injEq] at h
      obtain ⟨h4, h5, -⟩ := h
      subst h4; subst h5
      exact ⟨h3, h1⟩
    · exact absurd h (by simp)

/-- The trade-parameter computation only succeeds with the stop strictly
on the correct side and strictly ordered take-profits. -/
theorem trade_params_ordering (cfg : Config) (signal_type : String)
    (bars : List Bar) (tech : TechnicalAnalysisResult) (m : Metrics)
    (account_balance : ℚ) (category : String) (ps : PairSettings)
    (p : TradeParams)
    (h : calculate_trade_parameters_enhanced cfg signal_type bars tech m
      account_balance category ps = some p) :
    (signal_type = "BUY" →
      p.stop_loss < p.entry_price ∧ p.entry_price < p.take_profit_1 ∧
      p.take_profit_1 < p.take_profit_2) ∧
    (signal_type ≠ "BUY" →
      p.take_profit_2 < p.take_profit_1 ∧ p.take_profit_1 < p.entry_price ∧
      p.entry_price < p.stop_loss) := by
  simp only [calculate_trade_parameters_enhanced] at h
  split at h
  · exact absurd h (by simp)
  rename_i cp hcp
  split at h
  · exact absurd h (by simp)
  rename_i hsl0
  by_cases hst : signal_type = "BUY"
  · rw [if_pos hst] at h
    by_cases hside : calculate_stop_loss_enhanced signal_type cp tech bars
        category ≥ cp
    · rw [if_pos hside] at h
      exact absurd h (by simp)
    · rw [if_neg hside] at h
      push_neg at hside
      dsimp only at h
      split at h
      · exact absurd h (by simp)
      split at h
      · rename_i hpct tp1 tp2 tprest htp
        obtain rfl := Option.some.inj h
        have hord := (take_profits_ordering signal_type cp
          (cp - calculate_stop_loss_enhanced signal_type cp tech bars category)
          category tp1 tp2 tprest htp).1 hst
        exact ⟨fun _ => ⟨hside, hord.1, hord.2⟩, fun hne => absurd hst hne⟩
      · exact absurd h (by simp)
  · rw [if_neg hst] at h
    by_cases hside : calculate_stop_loss_enhanced signal_type cp tech bars
        category ≤ cp
    · rw [if_pos hside] at h
      exact absurd h (by simp)
    · rw [if_neg hside] at h
      push_neg at hside
      dsimp only at h
      split at h
      · exact absurd h (by simp)
      split at h
      · rename_i hpct tp1 tp2 tprest htp
        obtain rfl := Option.some.inj h
        have hord := (take_profits_ordering signal_type cp
          (calculate_stop_loss_enhanced signal_type cp tech bars category - cp)
          category tp1 tp2 tprest htp).2 hst
        exact ⟨fun hb => absurd hb hst, fun _ => ⟨hord.1, hord.2, hside⟩⟩
      · exact absurd h (by simp)

/-- The signal-type decision yields one of the three direction strings. -/
theorem determine_signal_type_cases (m : Metrics)
    (tech : TechnicalAnalysisResult) (fund : FundamentalAnalysisResult)
    (category : String) :
    determine_signal_type_enhanced m tech fund category = "BUY" ∨
    determine_signal_type_enhanced m tech fund category = "SELL" ∨
    determine_signal_type_enhanced m tech fund category = "NEUTRAL" := by
  simp only [determine_signal_type_enhanced]
  split_ifs <;> simp

/-- C1: every TradingSignal produced by a non-rejected synthesis outcome
satisfies the ordering invariant — for BUY,
stop_loss < entry_price < take_profit_1 < take_profit_2, and for SELL
all inequalities reverse — for every category, klines series, ticker and
analysis-result configuration. -/
theorem trading_signal_ordering (cfg : Config) (symbol : String)
    (bars : List Bar) (ticker : Option Ticker)
    (tech : TechnicalAnalysisResult) (fund : FundamentalAnalysisResult)
    (account_balance : ℚ) (sig : TradingSignal)
    (h : generate_signal cfg symbol bars ticker tech fund account_balance =
      some sig) :
    (sig.signal_type = "BUY" ∧ sig.stop_loss < sig.entry_price ∧
      sig.entry_price < sig.take_profit_1 ∧
      sig.take_profit_1 < sig.take_profit_2) ∨
    (sig.signal_type = "SELL" ∧ sig.take_profit_2 < sig.take_profit_1 ∧
      sig.take_profit_1 < sig.entry_price ∧
      sig.entry_price < sig.stop_loss) := by
  simp only [generate_signal] at h
  split at h
  · exact absurd h (by simp)
  split at h
  · exact absurd h (by simp)
  split at h
  · exact absurd h (by simp)
  split at h
  · exact absurd h (by simp)
  split at h
  · exact absurd h (by simp)
  rename_i hneutral
  split at h
  · exact absurd h (by simp)
  rename_i p hp
  obtain rfl := Option.some.inj h
  have hord := trade_params_ordering cfg _ bars tech _ account_balance _ _ p hp
  rcases determine_signal_type_cases
      (calculate_enhanced_metrics tech fund ticker (get_pair_category symbol))
      tech fund (get_pair_category symbol) with hb | hs | hn
  · left
    simp only [create_enhanced_trading_signal]
    obtain ⟨o1, o2, o3⟩ := hord.1 hb
    exact ⟨hb, o1, o2, o3⟩
  · right
    simp only [create_enhanced_trading_signal]
    obtain ⟨o1, o2, o3⟩ := hord.2 (by rw [hs]; decide)
    exact ⟨hs, o1, o2, o3⟩
  · exact absurd hn hneutral

/-- The signal emitted in the C1 witness run: BTCUSDT (major), one
strong MACD BUY indicator at confidence 80, quiet ticker, one klines bar
(ATR falls back to 2 percent of price 101): stop 97.364, TP 108.272 and
113.726. -/
def c1WitnessSignal : TradingSignal :=
  { symbol := "BTCUSDT", signal_type := "BUY", entry_price := 101,
    stop_loss := 24341 / 250, take_profit_1 := 13534 / 125,
    take_profit_2 := 56863 / 500, leverage := 4, confidence := 50,
    risk_amount := 200, position_size := 6000, category := "major" }

/-- Witness for C1: a concrete non-rejected synthesis run emits
c1WitnessSignal and the ordering invariant holds for it. -/
theorem trading_signal_ordering_witness :
    (c1WitnessSignal.signal_type = "BUY" ∧
      c1WitnessSignal.stop_loss < c1WitnessSignal.entry_price ∧
      c1WitnessSignal.entry_price < c1WitnessSignal.take_profit_1 ∧
      c1WitnessSignal.take_profit_1 < c1WitnessSignal.take_profit_2) ∨
    (c1WitnessSignal.signal_type = "SELL" ∧
      c1WitnessSignal.take_profit_2 < c1WitnessSignal.take_profit_1 ∧
      c1WitnessSignal.take_profit_1 < c1WitnessSignal.entry_price ∧
      c1WitnessSignal.entry_price < c1WitnessSignal.stop_loss) :=
  trading_signal_ordering defaultConfig "BTCUSDT"
    [{ op := 101, hi := 102, lo := 100, cl := 101, vol := 5 }]
    (some { lastPrice := 100.5, highPrice24h := 101, lowPrice24h := 100,
            turnover24h := 100000000, price24hPcnt := 0.01 })
    { symbol := "BTCUSDT", timeframe := "4h",
      signals := [{ name := "MACD", value := 0, signal := "BUY",
                    strength := 0.9, description := "d" }],
      overall_signal := "BUY", confidence := 80, price_targets := [],
      stop_loss := 0, support_levels := [], resistance_levels := [] }
    { symbol := "BTCUSDT", signals := [], overall_signal := "NEUTRAL",
      confidence := 0, risk_factors := [], market_sentiment := "NEUTRAL" }
    10000 c1WitnessSignal (by with_unfolding_all rfl)

/-! ## Claim C7: the data-validation gate of the technical analyzer -/

/-- C7: for every OHLCV input that is empty, has fewer than 50 bars, is
missing a required column, contains nulls, or violates
low ≤ {open, close} ≤ high in some row, `analyze` returns a result with
overall_signal NEUTRAL, confidence 0 and an empty signal list — for
every instantiation of the oscillator/volatility families.  (`analyze`
is a total function, so no exception reaches the caller.) -/
theorem invalid_data_neutral_result
    (oscillators volatilityFamily : List Bar → List IndicatorSignal)
    (df : RawDf) (symbol timeframe : String)
    (h : df.rows.length < 50 ∨
      ¬(df.hasOpen = true ∧ df.hasHigh = true ∧ df.hasLow = true ∧
        df.hasClose = true) ∨
      (∃ r ∈ df.rows, r.op = none ∨ r.hi = none ∨ r.lo = none ∨ r.cl = none) ∨
      (∃ r ∈ df.rows, ∃ o hi lo c : ℚ, r.op = some o ∧ r.hi = some hi ∧
        r.lo = some lo ∧ r.cl = some c ∧
        ¬(lo ≤ o ∧ o ≤ hi ∧ lo ≤ c ∧ c ≤ hi))) :
    (analyze oscillators volatilityFamily df symbol
      timeframe).overall_signal = "NEUTRAL" ∧
    (analyze oscillators volatilityFamily df symbol timeframe).confidence = 0 ∧
    (analyze oscillators volatilityFamily df symbol timeframe).signals = [] := by
  suffices hsuff : analyze oscillators volatilityFamily df symbol timeframe =
      create_empty_result symbol timeframe by
    rw [hsuff]
    exact ⟨rfl, rfl, rfl⟩
  unfold analyze
  rcases Nat.lt_or_ge df.rows.length 50 with hlen | hlen
  · rw [if_pos hlen]
  · rw [if_neg (Nat.not_lt.mpr hlen)]
    have hval : validate_data df = false := by
      apply Bool.eq_false_iff.mpr
      intro htrue
      simp only [validate_data, Bool.and_eq_true, List.all_eq_true] at htrue
      obtain ⟨⟨⟨⟨⟨hO, hH⟩, hL⟩, hC⟩, hnulls⟩, hrows⟩ := htrue
      rcases h with hlen2 | hcols | ⟨r, hr, hnull⟩ | hbad
      · omega
      · exact hcols ⟨hO, hH, hL, hC⟩
      · have := hnulls r hr
        simp only [Bool.and_eq_true, Option.isSome_iff_ne_none] at this
        rcases hnull with hn | hn | hn | hn
        · exact this.1.1.1 hn
        · exact this.1.1.2 hn
        · exact this.1.2 hn
        · exact this.2 hn
      · obtain ⟨r, hr, o, hi, lo, c, ho, hhi, hlo, hc, hord⟩ := hbad
        have := hrows r hr
        simp only [ho, hhi, hlo, hc, Option.getD_some, Bool.not_eq_eq_eq_not,
          Bool.not_true, Bool.or_eq_false_iff, decide_eq_false_iff_not,
          not_lt] at this
        obtain ⟨⟨⟨⟨h1, h2⟩, h3⟩, h4⟩, h5⟩ := this
        exact hord ⟨h5, h4, h3, h2⟩
    rw [hval]
    simp

/-- The raw frame for the C7 witness: 50 rows with all columns present
and no nulls, but the first row closes above its high. -/
def c7WitnessDf : RawDf :=
  { hasOpen := true, hasHigh := true, hasLow := true, hasClose := true,
    hasVolume := true,
    rows := { op := some 1, hi := some 2, lo := some 1, cl := some 3,
              vol := some 0 } ::
      List.replicate 49 { op := some 1, hi := some 2, lo := some 1,
                          cl := some 2, vol := some 0 } }

/-- Witness for C7: the frame with one close-above-high row yields the
NEUTRAL/zero-confidence empty result. -/
theorem invalid_data_neutral_result_witness :
    (analyze (fun _ => []) (fun _ => []) c7WitnessDf "BTCUSDT"
      "4h").overall_signal = "NEUTRAL" ∧
    (analyze (fun _ => []) (fun _ => []) c7WitnessDf "BTCUSDT"
      "4h").confidence = 0 ∧
    (analyze (fun _ => []) (fun _ => []) c7WitnessDf "BTCUSDT"
      "4h").signals = [] :=
  invalid_data_neutral_result (fun _ => []) (fun _ => []) c7WitnessDf
    "BTCUSDT" "4h"
    (Or.inr (Or.inr (Or.inr
      ⟨{ op := some 1, hi := some 2, lo := some 1, cl := some 3,
         vol := some 0 },
       List.mem_cons_self _ _, 1, 2, 1, 3, rfl, rfl, rfl, rfl,
       by norm_num⟩)))

/-! ## Claim C8: strength and direction bounds of the Indicator Engine -/

theorem min_unit_bounds {a c : ℚ} (ha : 0 ≤ a) (hc0 : 0 ≤ c) (hc1 : c ≤ 1) :
    0 ≤ min a c ∧ min a c ≤ 1 :=
  ⟨le_min ha hc0, le_trans (min_le_right a c) hc1⟩

theorem abs_min_unit {a c : ℚ} (ha : 0 ≤ a) (hc0 : 0 ≤ c) (hc1 : c ≤ 1) :
    0 ≤ |min a c| ∧ |min a c| ≤ 1 := by
  have h := min_unit_bounds ha hc0 hc1
  rw [abs_of_nonneg h.1]
  exact h

theorem ewmAdjustAux_length (r : ℚ) (xs : List ℚ) :
    ∀ num den : ℚ, (ewmAdjustAux r num den xs).length = xs.length := by
  induction xs with
  | nil => intro num den; rfl
  | cons x xs ih =>
    intro num den
    simp only [ewmAdjustAux, List.length_cons, ih]

theorem ewmAdjust_length (span : ℚ) (xs : List ℚ) :
    (ewmAdjust span xs).length = xs.length :=
  ewmAdjustAux_length _ _ _ _

/-- Every EMA trend entry has strength in [0, 1] and a valid direction. -/
theorem ema_trend_signal_bounds {cls : List ℚ} {cp : ℚ} {per : ℕ}
    {s : IndicatorSignal} (h3 : 3 ≤ cls.length)
    (h : ema_trend_signal cls cp per = some s) :
    0 ≤ s.strength ∧ s.strength ≤ 1 ∧ isDirection s.signal := by
  simp only [ema_trend_signal] at h
  split at h
  · split at h
    · exact absurd h (by simp)
    · rw [if_pos (by rw [ewmAdjust_length]; exact h3)] at h
      obtain rfl := Option.some.inj h
      dsimp only
      split
      · dsimp only
        refine ⟨abs_nonneg _, ?_, Or.inl rfl⟩
        rw [abs_of_nonneg (le_min (by positivity) (by norm_num))]
        exact le_trans (min_le_right _ _) (by norm_num)
      · split
        · dsimp only
          refine ⟨abs_nonneg _, ?_, Or.inr (Or.inl rfl)⟩
          rw [abs_of_nonneg (le_min (by positivity) (by norm_num))]
          exact le_trans (min_le_right _ _) (by norm_num)
        · exact ⟨abs_nonneg _, by rw [abs_of_nonneg (by norm_num)]; norm_num,
            Or.inr (Or.inr rfl)⟩
  · exact absurd h (by simp)

/-- Every SMA trend entry has strength in [0, 1] and a valid direction. -/
theorem sma_trend_signal_bounds {cls : List ℚ} {cp : ℚ} {per : ℕ}
    {s : IndicatorSignal} (h5 : 5 ≤ cls.length)
    (h : sma_trend_signal cls cp per = some s) :
    0 ≤ s.strength ∧ s.strength ≤ 1 ∧ isDirection s.signal := by
  simp only [sma_trend_signal] at h
  split at h
  · split at h
    · exact absurd h (by simp)
    · split at h
      · obtain rfl := Option.some.inj h
        dsimp only
        split
        · dsimp only
          refine ⟨abs_nonneg _, ?_, Or.inl rfl⟩
          rw [abs_of_nonneg (le_min (by positivity) (by norm_num))]
          exact le_trans (min_le_right _ _) (by norm_num)
        · split
          · dsimp only
            refine ⟨abs_nonneg _, ?_, Or.inr (Or.inl rfl)⟩
            rw [abs_of_nonneg (le_min (by positivity) (by norm_num))]
            exact le_trans (min_le_right _ _) (by norm_num)
          · exact ⟨abs_nonneg _, by rw [abs_of_nonneg (by norm_num)]; norm_num,
              Or.inr (Or.inr rfl)⟩
      · obtain rfl := Option.some.inj h
        exact ⟨abs_nonneg _, by rw [abs_of_nonneg (by norm_num)]; norm_num,
          Or.inr (Or.inr rfl)⟩
  · exact absurd h (by simp)

theorem macd_cross_signal_bounds (a b c d e : ℚ) :
    0 ≤ (macd_cross_signal a b c d e).2 ∧
    (macd_cross_signal a b c d e).2 ≤ 0.8 ∧
    isDirection (macd_cross_signal a b c d e).1 := by
  unfold macd_cross_signal
  split_ifs
  · exact ⟨by norm_num, by norm_num, Or.inl rfl⟩
  · exact ⟨by norm_num, by norm_num, Or.inr (Or.inl rfl)⟩
  · exact ⟨le_min (by positivity) (by norm_num),
           le_trans (min_le_right _ _) (by norm_num), Or.inl rfl⟩
  · exact ⟨le_min (by positivity) (by norm_num),
           le_trans (min_le_right _ _) (by norm_num), Or.inr (Or.inl rfl)⟩
  · exact ⟨by norm_num, by norm_num, Or.inr (Or.inr rfl)⟩

theorem macd_zero_cross_strength_bounds (ml pm st : ℚ) (h0 : 0 ≤ st)
    (h1 : st ≤ 0.8) :
    0 ≤ macd_zero_cross_strength ml pm st ∧
    macd_zero_cross_strength ml pm st ≤ 1 := by
  unfold macd_zero_cross_strength
  split_ifs
  · exact ⟨le_min (by linarith) (by norm_num),
           le_trans (min_le_right _ _) (by norm_num)⟩
  · exact ⟨le_min (by linarith) (by norm_num),
           le_trans (min_le_right _ _) (by norm_num)⟩
  · exact ⟨h0, by linarith⟩
  · exact ⟨h0, by linarith⟩

/-- The MACD entry has strength in [0, 1] and a valid direction. -/
theorem macd_trend_signal_bounds {cls : List ℚ} {s : IndicatorSignal}
    (h : macd_trend_signal cls = some s) :
    0 ≤ s.strength ∧ s.strength ≤ 1 ∧ isDirection s.signal := by
  simp only [macd_trend_signal] at h
  split at h
  · split at h
    · obtain rfl := Option.some.inj h
      refine ⟨?_, ?_, (macd_cross_signal_bounds _ _ _ _ _).2.2⟩
      · exact (macd_zero_cross_strength_bounds _ _ _
          (macd_cross_signal_bounds _ _ _ _ _).1
          (macd_cross_signal_bounds _ _ _ _ _).2.1).1
      · exact (macd_zero_cross_strength_bounds _ _ _
          (macd_cross_signal_bounds _ _ _ _ _).1
          (macd_cross_signal_bounds _ _ _ _ _).2.1).2
    · exact absurd h (by simp)
  · exact absurd h (by simp)

/-- Every trend-family entry has strength in [0, 1] and a valid
direction (5 or more bars keep the short-history branches dead). -/
theorem trend_signals_bounds {bars : List Bar} {s : IndicatorSignal}
    (h5 : 5 ≤ bars.length)
    (hs : s ∈ analyze_trend_indicators_finta bars) :
    0 ≤ s.strength ∧ s.strength ≤ 1 ∧ isDirection s.signal := by
  have hlen : (closes bars).length = bars.length := List.length_map _ _
  simp only [analyze_trend_indicators_finta] at hs
  split at hs
  · simp at hs
  · simp only [List.mem_append] at hs
    rcases hs with (hs | hs) | hs
    · obtain ⟨per, hper, hsig⟩ := List.mem_filterMap.mp hs
      exact ema_trend_signal_bounds (by omega) hsig
    · rw [Option.mem_toList, Option.mem_def] at hs
      exact macd_trend_signal_bounds hs
    · obtain ⟨per, hper, hsig⟩ := List.mem_filterMap.mp hs
      exact sma_trend_signal_bounds (by omega) hsig

theorem volume_core_signal_bounds (vr pc : ℚ) :
    0 ≤ (volume_core_signal vr pc).2 ∧ (volume_core_signal vr pc).2 ≤ 0.8 ∧
    isDirection (volume_core_signal vr pc).1 := by
  unfold volume_core_signal
  split_ifs with h1 h2 h3 h4 h5 h6
  · exact ⟨le_min (by linarith) (by norm_num),
           le_trans (min_le_right _ _) (by norm_num), Or.inl rfl⟩
  · exact ⟨le_min (by linarith) (by norm_num),
           le_trans (min_le_right _ _) (by norm_num), Or.inr (Or.inl rfl)⟩
  · exact ⟨by norm_num, by norm_num, Or.inr (Or.inr rfl)⟩
  · exact ⟨le_min (by linarith) (by norm_num),
           le_trans (min_le_right _ _) (by norm_num), Or.inl rfl⟩
  · exact ⟨by norm_num, by norm_num, Or.inr (Or.inr rfl)⟩
  · exact ⟨by norm_num, by norm_num, Or.inr (Or.inr rfl)⟩
  · exact ⟨by norm_num, by norm_num, Or.inr (Or.inr rfl)⟩

theorem volume_obv_adjust_bounds (core : String × ℚ) (t : ℚ)
    (h0 : 0 ≤ core.2) (h1 : core.2 ≤ 0.8) (hdir : isDirection core.1) :
    0 ≤ (volume_obv_adjust core t).2 ∧ (volume_obv_adjust core t).2 ≤ 1 ∧
    isDirection (volume_obv_adjust core t).1 := by
  unfold volume_obv_adjust
  split_ifs
  · exact ⟨le_min (by linarith [abs_nonneg t]) (by norm_num),
           le_trans (min_le_right _ _) (by norm_num), Or.inl rfl⟩
  · exact ⟨le_min (by linarith [abs_nonneg t]) (by norm_num),
           le_trans (min_le_right _ _) (by norm_num), Or.inr (Or.inl rfl)⟩
  · exact ⟨h0, by linarith, hdir⟩
  · exact ⟨h0, by linarith, hdir⟩

/-- The volume signal after the OBV correction stays bounded for every
ratio, price change and OBV trend. -/
theorem volume_adjusted_bounds (vr pc t : ℚ) :
    0 ≤ (volume_obv_adjust (volume_core_signal vr pc) t).2 ∧
    (volume_obv_adjust (volume_core_signal vr pc) t).2 ≤ 1 ∧
    isDirection (volume_obv_adjust (volume_core_signal vr pc) t).1 := by
  have hc := volume_core_signal_bounds vr pc
  exact volume_obv_adjust_bounds (volume_core_signal vr pc) t hc.1 hc.2.1 hc.2.2

/-- Every volume-family entry has strength in [0, 1] and a valid
direction. -/
theorem volume_signals_bounds {bars : List Bar} {s : IndicatorSignal}
    (hs : s ∈ analyze_volume_indicators_finta bars) :
    0 ≤ s.strength ∧ s.strength ≤ 1 ∧ isDirection s.signal := by
  simp only [analyze_volume_indicators_finta] at hs
  split at hs
  · split at hs
    · split at hs
      · simp only [List.mem_singleton] at hs
        subst hs
        exact volume_adjusted_bounds _ _ _
      · simp at hs
    · simp at hs
  · simp at hs

/-- Every candlestick-pattern entry has strength in [0, 1] and a valid
direction. -/
theorem candlestick_bounds {bars : List Bar} {s : IndicatorSignal}
    (hs : s ∈ analyze_candlestick_patterns bars) :
    0 ≤ s.strength ∧ s.strength ≤ 1 ∧ isDirection s.signal := by
  simp only [analyze_candlestick_patterns] at hs
  split at hs
  · simp at hs
  · split at hs
    · rw [List.mem_map] at hs
      obtain ⟨p, hp, rfl⟩ := hs
      rw [List.mem_append] at hp
      rcases hp with hp | hp <;>
        repeat
          first
          | exact absurd hp (List.not_mem_nil _)
          | (obtain rfl := List.mem_singleton.mp hp
             exact ⟨by norm_num, by norm_num, by decide⟩)
          | split at hp
          | (rw [List.mem_append] at hp; rcases hp with hp | hp)
    · simp at hs

/-- C8: for every valid OHLCV series of length at least 50 with
consistent high/low/open/close ordering, every IndicatorSignal returned
by the trend, volume and candlestick-pattern families of the Indicator
Engine has strength in [0, 1] and direction in {BUY, SELL, NEUTRAL}. -/
theorem indicator_signal_bounds (bars : List Bar) (s : IndicatorSignal)
    (h50 : 50 ≤ bars.length)
    (hwf : ∀ b ∈ bars, b.lo ≤ b.op ∧ b.op ≤ b.hi ∧ b.lo ≤ b.cl ∧ b.cl ≤ b.hi)
    (hs : s ∈ analyze_trend_indicators_finta bars ++
      analyze_volume_indicators_finta bars ++
      analyze_candlestick_patterns bars) :
    0 ≤ s.strength ∧ s.strength ≤ 1 ∧ isDirection s.signal := by
  rw [List.mem_append, List.mem_append] at hs
  rcases hs with (hs | hs) | hs
  · exact trend_signals_bounds (by omega) hs
  · exact volume_signals_bounds hs
  · exact candlestick_bounds hs

/-- The bar repeated in the C8 witness series. -/
def c8WitnessBar : Bar :=
  { op := 101, hi := 102, lo := 100, cl := 101, vol := 5 }

/-- The candlestick signal the witness series produces (a Doji on three
identical bars). -/
def c8WitnessSignal : IndicatorSignal :=
  { name := "Pattern_Doji", value := 1, signal := "NEUTRAL", strength := 0.4,
    description := "candlestick pattern" }

/-- Witness for C8: a 50-bar valid series produces the Doji pattern
signal, and the theorem bounds it. -/
theorem indicator_signal_bounds_witness :
    50 ≤ (List.replicate 50 c8WitnessBar).length ∧
    0 ≤ c8WitnessSignal.strength ∧ c8WitnessSignal.strength ≤ 1 ∧
    isDirection c8WitnessSignal.signal := by
  refine ⟨by simp, ?_⟩
  refine indicator_signal_bounds (List.replicate 50 c8WitnessBar)
    c8WitnessSignal (by simp) ?_ ?_
  · intro b hb
    rw [List.eq_of_mem_replicate hb]
    refine ⟨?_, ?_, ?_, ?_⟩ <;> norm_num [c8WitnessBar]
  · refine List.mem_append_right _ ?_
    have hstep : analyze_candlestick_patterns (List.replicate 50 c8WitnessBar) =
        [c8WitnessSignal] := by with_unfolding_all rfl
    rw [hstep]
    exact List.mem_singleton_self _

end CryptoBot
